import Mathlib

/-!
Verification development for the tank-battle simulation core
(src/src/simulation/BattleManager.js and its collaborators).

The JavaScript engine is shallowly embedded: the mutable `BattleManager`
object becomes an explicit `BattleState` value threaded through pure
functions, each translated from the corresponding method of the source.
Files of the repository that are not present under src/ (constants.js,
Grid.js, CPU.js, Tokenizer.js, Parser.js) are modelled from the spec and
from the earlier revision of BattleManager kept at src/unnamed/part_000,
which inlines every numeric constant.
-/

/-- Tank identifiers, from TANK_IDS in BattleManager.js. -/
inductive TankId where
  | P1
  | P2
  deriving DecidableEq

/-- Modelled from the spec: constants.js is not under src/.  The numeric
values are the ones inlined in the earlier revision of BattleManager
(src/unnamed/part_000): a 16 by 10 grid. -/
def GRID_WIDTH : Int := 16

/-- Grid height, see GRID_WIDTH. -/
def GRID_HEIGHT : Int := 10

/-- Initial hit points of each tank (part_000 inlines hp = 3). -/
def INITIAL_HP : Int := 3

/-- Sub-cells a bullet advances per turn (part_000 inlines the loop bound 2). -/
def BULLET_SPEED : Nat := 2

/-- Maximum bullet travel distance (part_000 inlines the bound 40). -/
def BULLET_MAX_RANGE : Nat := 40

/-- Direction table DIRS: 0=East, 1=South, 2=West, 3=North. -/
def DIRS : Nat → Int × Int
  | 0 => (1, 0)
  | 1 => (0, 1)
  | 2 => (-1, 0)
  | _ => (0, -1)

/-- Modelled from the spec: Grid.js is not under src/.  Per §4.5 and §3 the
grid is dimensions plus a wall set keyed by coordinate pairs. -/
structure Grid where
  width : Int
  height : Int
  walls : List (Int × Int)
  deriving DecidableEq

/-- Modelled from the spec (§4.5): isValid(x, y) is true iff 0 ≤ x < width,
0 ≤ y < height, and (x, y) is not a wall cell. -/
def Grid.isValid (g : Grid) (x y : Int) : Bool :=
  decide (0 ≤ x) && decide (x < g.width) && decide (0 ≤ y) && decide (y < g.height)
    && !(g.walls.contains (x, y))

/-- Modelled from the spec: addWall records a wall cell in the wall set. -/
def Grid.addWall (g : Grid) (x y : Int) : Grid :=
  { g with walls := g.walls ++ [(x, y)] }

/-- Instruction shape used by the debug display in stepCPU:
`instr.opcode` and `instr.args`. -/
structure Instr where
  opcode : String
  args : List String
  deriving DecidableEq

/-- Modelled from the spec: CPU.js is not under src/.  Per §3 and §4.3 a CPU
owns a register file of named slots and a read-only program (plus the label
table passed to the constructor).  The register file is modelled as an
association list from names to values, newest binding first; a register
never written reads as 0. -/
structure CPU where
  registers : List (String × Int)
  program : List Instr
  labels : List (String × Nat)
  deriving DecidableEq

/-- Read a register; a name with no binding reads as 0. -/
def CPU.getReg (c : CPU) (n : String) : Int :=
  (c.registers.lookup n).getD 0

/-- setRegister(name, value), per §4.3: written by BattleManager only. -/
def CPU.setRegister (c : CPU) (n : String) (v : Int) : CPU :=
  { c with registers := (n, v) :: c.registers }

/-- updateTankState(x, y, facing, hp, ammoAvailable), per §4.3: mirrors the
authoritative world state into the sensor registers PX, PY, DIR, HP, AMMO. -/
def CPU.updateTankState (c : CPU) (x y : Int) (facing : Nat) (hp : Int) (ammo : Int) : CPU :=
  ((((c.setRegister "PX" x).setRegister "PY" y).setRegister
      "DIR" (facing : Int)).setRegister "HP" hp).setRegister "AMMO" ammo

/-- Modelled from the spec: new CPU(program, labels) builds a fresh
interpreter whose registers all read as 0 (empty register file). -/
def mkCPU (program : List Instr) (labels : List (String × Nat)) : CPU :=
  { registers := [], program := program, labels := labels }

/-- Tagged result objects produced by cpu.step() and stored in the
pending-action slots; one case per `type` string observed in
BattleManager.js (CPU_OP, MOVE, ROTATE, FIRE, SCAN, PING, WAIT, HALT,
DEAD). -/
inductive ActionResult where
  | cpuOp (opcode : String)
  | move (dir : String)
  | rotate (dir : String)
  | fire
  | scan (destDist destType : String)
  | ping (destX destY : String)
  | wait (reason : String)
  | halt
  | dead
  deriving DecidableEq

/-- The `type` string of a result object. -/
def ActionResult.typeString : ActionResult → String
  | .cpuOp _ => "CPU_OP"
  | .move _ => "MOVE"
  | .rotate _ => "ROTATE"
  | .fire => "FIRE"
  | .scan _ _ => "SCAN"
  | .ping _ _ => "PING"
  | .wait _ => "WAIT"
  | .halt => "HALT"
  | .dead => "DEAD"

/-- Tank record, from the Tank typedef in BattleManager.js (debugRegisters
holds the copy `{ ...cpu.registers }` taken after each step). -/
structure Tank where
  x : Int
  y : Int
  facing : Nat
  hp : Int
  cpu : Option CPU
  lastAction : Option String
  lastFeedback : Option String
  debugPC : Int
  debugIR : Option String
  debugRegisters : List (String × Int)
  turnOps : Nat
  totalOps : Nat
  deriving DecidableEq

/-- Bullet record, from the Bullet typedef in BattleManager.js. -/
structure Bullet where
  id : Nat
  owner : TankId
  x : Int
  y : Int
  dx : Int
  dy : Int
  dist : Nat
  deriving DecidableEq

/-- Event record pushed by addEvent; EXPLOSION events use x, y, owner and
optionally hitTank, PING events use tankId, x, y, enemyX, enemyY. -/
structure Event where
  id : Nat
  type : String
  x : Int
  y : Int
  owner : Option TankId
  hitTank : Option TankId
  tankId : Option TankId
  enemyX : Option Int
  enemyY : Option Int
  deriving DecidableEq

/-- The whole mutable state of a BattleManager instance, made explicit. -/
structure BattleState where
  grid : Grid
  tankP1 : Tank
  tankP2 : Tank
  bullets : List Bullet
  log : List String
  events : List Event
  isGameOver : Bool
  winner : Option String
  pendingP1 : Option ActionResult
  pendingP2 : Option ActionResult
  turnOpsP1 : Nat
  turnOpsP2 : Nat
  turnCount : Nat
  eventIdCounter : Nat
  deriving DecidableEq

/-- Look a tank up by id. -/
def getTank (s : BattleState) : TankId → Tank
  | .P1 => s.tankP1
  | .P2 => s.tankP2

/-- Replace a tank by id. -/
def setTank (s : BattleState) (tid : TankId) (t : Tank) : BattleState :=
  match tid with
  | .P1 => { s with tankP1 := t }
  | .P2 => { s with tankP2 := t }

/-- The opposing tank id (`tankId === 'P1' ? 'P2' : 'P1'`). -/
def enemyOf : TankId → TankId
  | .P1 => .P2
  | .P2 => .P1

/-- Set a tank's lastFeedback field. -/
def setFeedback (s : BattleState) (tid : TankId) (v : Option String) : BattleState :=
  setTank s tid { getTank s tid with lastFeedback := v }

/-- Pending-action slot of a tank. -/
def getPending (s : BattleState) : TankId → Option ActionResult
  | .P1 => s.pendingP1
  | .P2 => s.pendingP2

/-- Replace a pending-action slot. -/
def setPending (s : BattleState) (tid : TankId) (v : Option ActionResult) : BattleState :=
  match tid with
  | .P1 => { s with pendingP1 := v }
  | .P2 => { s with pendingP2 := v }

/-- The display name of a tank id. -/
def tidName : TankId → String
  | .P1 => "P1"
  | .P2 => "P2"

/-- Pad a turn number to three digits (String(n).padStart(3, '0')). -/
def pad3 (n : Nat) : String :=
  let t := toString n
  if t.length ≥ 3 then t
  else if t.length = 2 then "0" ++ t
  else "00" ++ t

/-- The _logTick helper: prefixes a message with the CPU name and turn. -/
def logTick (s : BattleState) (tid : TankId) (msg : String) : BattleState :=
  let cpu := match tid with
    | .P1 => "CPU_1"
    | .P2 => "CPU_2"
  { s with log := s.log ++ ["[" ++ cpu ++ " T" ++ pad3 s.turnCount ++ "] " ++ msg] }

/-- Append an EXPLOSION event (addEvent with type EXPLOSION). -/
def addEventExplosion (s : BattleState) (x y : Int) (owner : TankId)
    (hit : Option TankId) : BattleState :=
  let e : Event :=
    { id := s.eventIdCounter, type := "EXPLOSION", x := x, y := y,
      owner := some owner, hitTank := hit, tankId := none,
      enemyX := none, enemyY := none }
  { s with events := s.events ++ [e], eventIdCounter := s.eventIdCounter + 1 }

/-- Append a PING event (addEvent with type PING). -/
def addEventPing (s : BattleState) (tid : TankId) (x y ex ey : Int) : BattleState :=
  let e : Event :=
    { id := s.eventIdCounter, type := "PING", x := x, y := y,
      owner := none, hitTank := none, tankId := some tid,
      enemyX := some ex, enemyY := some ey }
  { s with events := s.events ++ [e], eventIdCounter := s.eventIdCounter + 1 }

/-- setupArena(level): clears the wall set, then installs the fixed layout
for levels 2 and 3 (any other level leaves the arena empty). -/
def setupArena (s : BattleState) (level : Nat) : BattleState :=
  let g : Grid := { s.grid with walls := [] }
  let g :=
    if level = 2 then
      (((g.addWall 7 4).addWall 7 5).addWall 8 4).addWall 8 5
    else if level = 3 then
      [((4 : Int), (2 : Int)), (4, 7), (12, 2), (12, 7), (8, 1), (8, 8)].foldl
        (fun g p => g.addWall p.1 p.2) g
    else g
  { s with grid := g }

/-- A starting pose (from START_POSITIONS in the constants module). -/
structure StartPose where
  x : Int
  y : Int
  facing : Nat
  deriving DecidableEq

/-- Starting pose of P1 (part_000: x 0, y 4, facing 0/East). -/
def START_P1 : StartPose := { x := 0, y := 4, facing := 0 }

/-- Starting pose of P2 (part_000: x 15, y 5, facing 2/West). -/
def START_P2 : StartPose := { x := 15, y := 5, facing := 2 }

/-- A freshly constructed tank record. -/
def initTank (p : StartPose) : Tank :=
  { x := p.x, y := p.y, facing := p.facing, hp := INITIAL_HP, cpu := none,
    lastAction := none, lastFeedback := none, debugPC := 0, debugIR := none,
    debugRegisters := [], turnOps := 0, totalOps := 0 }

/-- The BattleManager constructor: fresh tanks, empty collections, arena
level 1. -/
def initState : BattleState :=
  setupArena
    { grid := { width := GRID_WIDTH, height := GRID_HEIGHT, walls := [] },
      tankP1 := initTank START_P1, tankP2 := initTank START_P2,
      bullets := [], log := [], events := [], isGameOver := false,
      winner := none, pendingP1 := none, pendingP2 := none,
      turnOpsP1 := 0, turnOpsP2 := 0, turnCount := 0, eventIdCounter := 0 } 1

/-- resetTurnState(): clears turn bookkeeping, bullets, events and the log,
and restores both tanks to their starting pose and HP. -/
def resetTurnState (s : BattleState) : BattleState :=
  let t1 := { s.tankP1 with
    x := START_P1.x, y := START_P1.y,
    facing := START_P1.facing, hp := INITIAL_HP, totalOps := 0 }
  let t2 := { s.tankP2 with
    x := START_P2.x, y := START_P2.y,
    facing := START_P2.facing, hp := INITIAL_HP, totalOps := 0 }
  { s with
    pendingP1 := none, pendingP2 := none, turnOpsP1 := 0, turnOpsP2 := 0,
    turnCount := 0, isGameOver := false, winner := none,
    log := ["Turn reset."], events := [], bullets := [],
    tankP1 := t1, tankP2 := t2 }

/-- A movement intent: the target cell recorded by resolveAction for MOVE. -/
structure Intent where
  targetX : Int
  targetY : Int
  deriving DecidableEq

/-- Clamp a coordinate pair into grid bounds
(Math.max(0, Math.min(width - 1, x)) and likewise for y). -/
def clampTank (g : Grid) (t : Tank) : Tank :=
  { t with x := max 0 (min (g.width - 1) t.x), y := max 0 (min (g.height - 1) t.y) }

/-- Whether an intent is rejected by the wall check of applyMovements. -/
def wallRejected (g : Grid) : Option Intent → Bool
  | some t => !(g.isValid t.targetX t.targetY)
  | none => false

set_option maxHeartbeats 2000000 in
/-- applyMovements(intents): the ordered conflict filter of
BattleManager.js lines 376-451.  Tank positions are only written in the
final apply step, so the reads of `this.tanks.P1.x` etc. during the filter
all see the pre-move positions, captured here up front. -/
def applyMovements (s : BattleState) (m1 m2 : Option Intent) : BattleState :=
  let g := s.grid
  let p1 := (s.tankP1.x, s.tankP1.y)
  let p2 := (s.tankP2.x, s.tankP2.y)
  -- 1. Wall collision (highest priority)
  let s := if wallRejected g m1 then setFeedback s .P1 (some "WALL") else s
  let i1 := if wallRejected g m1 then none else m1
  let s := if wallRejected g m2 then setFeedback s .P2 (some "WALL") else s
  let i2 := if wallRejected g m2 then none else m2
  -- 2. Head-on collision (both tanks try to swap positions)
  let swapHit := match i1, i2 with
    | some t1, some t2 =>
        decide ((t1.targetX, t1.targetY) = p2 ∧ (t2.targetX, t2.targetY) = p1)
    | _, _ => false
  let s := if swapHit then
      setFeedback (setFeedback s .P1 (some "COLLISION")) .P2 (some "COLLISION")
    else s
  let i1 := if swapHit then none else i1
  let i2 := if swapHit then none else i2
  -- 3. Same-target collision (both tanks try to move to the same cell)
  let sameHit := match i1, i2 with
    | some t1, some t2 =>
        decide ((t1.targetX, t1.targetY) = (t2.targetX, t2.targetY))
    | _, _ => false
  let s := if sameHit then
      setFeedback (setFeedback s .P1 (some "COLLISION")) .P2 (some "COLLISION")
    else s
  let i1 := if sameHit then none else i1
  let i2 := if sameHit then none else i2
  -- 4. Blocked by the other tank's (still unmoved) current cell
  let blocked1 := match i1 with
    | some t1 => decide ((t1.targetX, t1.targetY) = p2)
    | none => false
  let s := if blocked1 then setFeedback s .P1 (some "BLOCKED") else s
  let i1 := if blocked1 then none else i1
  let blocked2 := match i2 with
    | some t2 => decide ((t2.targetX, t2.targetY) = p1)
    | none => false
  let s := if blocked2 then setFeedback s .P2 (some "BLOCKED") else s
  let i2 := if blocked2 then none else i2
  -- Apply surviving intents and log move results
  let s := match m1 with
    | none => s
    | some _ =>
      match i1 with
      | some t =>
        let s := setTank s .P1 { s.tankP1 with x := t.targetX, y := t.targetY }
        logTick s .P1 ("P1 moves to (" ++ toString t.targetX ++ ","
          ++ toString t.targetY ++ ")")
      | none =>
        logTick s .P1 ("P1 moves (" ++ (s.tankP1.lastFeedback.getD "").toLower ++ ")")
  let s := match m2 with
    | none => s
    | some _ =>
      match i2 with
      | some t =>
        let s := setTank s .P2 { s.tankP2 with x := t.targetX, y := t.targetY }
        logTick s .P2 ("P2 moves to (" ++ toString t.targetX ++ ","
          ++ toString t.targetY ++ ")")
      | none =>
        logTick s .P2 ("P2 moves (" ++ (s.tankP2.lastFeedback.getD "").toLower ++ ")")
  -- Final safety net: clamp both tanks to grid bounds
  { s with tankP1 := clampTank g s.tankP1, tankP2 := clampTank g s.tankP2 }

/-- Whether some live bullet is owned by a tank
(`this.bullets.some(b => b.owner === tankId)`). -/
def hasLiveBullet (s : BattleState) (tid : TankId) : Bool :=
  s.bullets.any (fun b => decide (b.owner = tid))

/-- resolveAction(tankId, action, intents): ROTATE mutates facing, MOVE
records an intent (returned as the second component, matching the
`intents[tankId]` slot this call may fill), FIRE spawns a bullet or resolves
a point-blank outcome; null, DEAD, HALT and WAIT do nothing, and so do
SCAN/PING (handled in the sensor phase) and CPU_OP objects. -/
def resolveAction (s : BattleState) (tid : TankId) (action : Option ActionResult) :
    BattleState × Option Intent :=
  match action with
  | some (.rotate dir) =>
    let tank := getTank s tid
    let dirName := if dir = "LEFT" then "left" else "right"
    let tank := if dir = "LEFT" then { tank with facing := (tank.facing + 3) % 4 } else tank
    let tank := if dir = "RIGHT" then { tank with facing := (tank.facing + 1) % 4 } else tank
    let s := setTank s tid tank
    (logTick s tid (tidName tid ++ " turns " ++ dirName), none)
  | some (.move dir) =>
    let tank := getTank s tid
    let dirIdx := if dir = "BACKWARD" then (tank.facing + 2) % 4 else tank.facing
    let d := DIRS dirIdx
    (s, some { targetX := tank.x + d.1, targetY := tank.y + d.2 })
  | some .fire =>
    let tank := getTank s tid
    if hasLiveBullet s tid then
      let s := setFeedback s tid (some "RELOADING")
      (logTick s tid (tidName tid ++ " fires (reloading)"), none)
    else
      let d := DIRS tank.facing
      let startX := tank.x + d.1
      let startY := tank.y + d.2
      if !(s.grid.isValid startX startY) then
        let s := addEventExplosion s startX startY tid none
        let s := setFeedback s tid (some "BLOCKED")
        (logTick s tid (tidName tid ++ " fires (blocked)"), none)
      else
        let eid := enemyOf tid
        let enemy := getTank s eid
        if enemy.hp > 0 ∧ enemy.x = startX ∧ enemy.y = startY then
          let s := setTank s eid { enemy with hp := enemy.hp - 1 }
          let s := logTick s tid (tidName tid ++ " fires - direct hit! "
            ++ tidName eid ++ " HP: " ++ toString (enemy.hp - 1))
          (addEventExplosion s startX startY tid (some eid), none)
        else
          let s := logTick s tid (tidName tid ++ " fires")
          let b : Bullet :=
            { id := s.eventIdCounter, owner := tid, x := startX, y := startY,
              dx := d.1, dy := d.2, dist := 0 }
          ({ s with
              bullets := s.bullets ++ [b],
              eventIdCounter := s.eventIdCounter + 1 }, none)
  | _ => (s, none)

/-- One iteration of the tank-hit loop inside updateBullets: bullets skip
their owner, and a living tank sharing the bullet's cell loses one HP. -/
def bulletHitTank (b : Bullet) (tid : TankId) (acc : BattleState × Bool) :
    BattleState × Bool :=
  let s := acc.1
  if tid = b.owner then acc
  else
    let t := getTank s tid
    if t.hp > 0 ∧ t.x = b.x ∧ t.y = b.y then
      let s := setTank s tid { t with hp := t.hp - 1 }
      let s := logTick s b.owner (tidName b.owner ++ " bullet hits "
        ++ tidName tid ++ "! HP: " ++ toString (t.hp - 1))
      (addEventExplosion s b.x b.y b.owner (some tid), false)
    else acc

/-- One sub-cell of bullet travel: advance one cell, then die on exceeding
max range (silently), on an invalid cell (explosion event), or on hitting a
living non-owner tank (HP decrement plus explosion event). -/
def bulletSubStep (s : BattleState) (b : Bullet) : BattleState × Bullet × Bool :=
  let b := { b with x := b.x + b.dx, y := b.y + b.dy, dist := b.dist + 1 }
  if b.dist > BULLET_MAX_RANGE then (s, b, false)
  else if !(s.grid.isValid b.x b.y) then
    (addEventExplosion s b.x b.y b.owner none, b, false)
  else
    let r := bulletHitTank b .P2 (bulletHitTank b .P1 (s, true))
    (r.1, b, r.2)

/-- The `for (let i = 0; i < BULLET_SPEED; i++)` loop of updateBullets,
with its early exit when the bullet goes inactive. -/
def bulletLoop (s : BattleState) (b : Bullet) (active : Bool) :
    Nat → BattleState × Bullet × Bool
  | 0 => (s, b, active)
  | Nat.succ n =>
    if active then
      let r := bulletSubStep s b
      bulletLoop r.1 r.2.1 r.2.2 n
    else (s, b, active)

/-- updateBullets(): each live bullet advances BULLET_SPEED sub-cells; the
survivors (in order) become the new bullet list. -/
def updateBullets (s : BattleState) : BattleState :=
  let r := s.bullets.foldl
    (fun (acc : BattleState × List Bullet) b =>
      let r := bulletLoop acc.1 b true BULLET_SPEED
      (r.1, if r.2.2 then acc.2 ++ [r.2.1] else acc.2))
    (s, [])
  { r.1 with bullets := r.2 }

/-- Modelled from the spec (§4.5): raycast steps cell-by-cell from the
origin (exclusive) along (dx, dy) until it exits the grid, hits a wall, or
hits a tracked occupant cell, returning the step count and a type code
(0 empty / 1 wall / 2 tank, the indices of typeNames in resolveScan).  The
convention for a ray that exits the grid is the step at which it leaves,
with type 0. -/
def raycastAux (g : Grid) (dx dy : Int) (occ : List (Int × Int)) :
    Nat → Int → Int → Nat → Nat × Nat
  | 0, _, _, d => (d, 0)
  | Nat.succ fuel, x, y, d =>
    let nx := x + dx
    let ny := y + dy
    if !(decide (0 ≤ nx) && decide (nx < g.width) && decide (0 ≤ ny)
        && decide (ny < g.height)) then (d + 1, 0)
    else if g.walls.contains (nx, ny) then (d + 1, 1)
    else if occ.contains (nx, ny) then (d + 1, 2)
    else raycastAux g dx dy occ fuel nx ny (d + 1)

/-- raycast entry point; the fuel bound exceeds any in-grid ray length. -/
def Grid.raycast (g : Grid) (ox oy dx dy : Int) (occ : List (Int × Int)) : Nat × Nat :=
  raycastAux g dx dy occ (g.width.toNat + g.height.toNat + 1) ox oy 0

/-- Type names used in the scan log line. -/
def scanTypeName : Nat → String
  | 1 => "WALL"
  | 2 => "TANK"
  | _ => "EMPTY"

/-- Write a register of a tank's CPU (no-op when the tank has no CPU; the
source assumes a CPU is installed whenever a SCAN/PING action exists). -/
def setCpuReg (s : BattleState) (tid : TankId) (name : String) (v : Int) : BattleState :=
  let t := getTank s tid
  setTank s tid { t with cpu := t.cpu.map (fun c => c.setRegister name v) }

/-- resolveScan(tankId, action): raycast along the facing direction with the
living enemy as the only tracked occupant; write distance and type into the
two destination registers and log the result. -/
def resolveScan (s : BattleState) (tid : TankId) (destDist destType : String) :
    BattleState :=
  let tank := getTank s tid
  let d := DIRS tank.facing
  let enemy := getTank s (enemyOf tid)
  let occ := if enemy.hp > 0 then [(enemy.x, enemy.y)] else []
  let r := s.grid.raycast tank.x tank.y d.1 d.2 occ
  let s := setCpuReg s tid destDist (r.1 : Int)
  let s := setCpuReg s tid destType (r.2 : Int)
  logTick s tid (tidName tid ++ " scans: " ++ scanTypeName r.2
    ++ " at dist " ++ toString r.1)

/-- resolvePing(tankId, action): write the living enemy's coordinates (or
the sentinel pair -1,-1) into the destination registers, emit a PING event
and log. -/
def resolvePing (s : BattleState) (tid : TankId) (destX destY : String) : BattleState :=
  let tank := getTank s tid
  let enemy := getTank s (enemyOf tid)
  if enemy.hp > 0 then
    let s := setCpuReg s tid destX enemy.x
    let s := setCpuReg s tid destY enemy.y
    let s := addEventPing s tid tank.x tank.y enemy.x enemy.y
    logTick s tid (tidName tid ++ " pings: enemy at (" ++ toString enemy.x
      ++ "," ++ toString enemy.y ++ ")")
  else
    let s := setCpuReg s tid destX (-1)
    let s := setCpuReg s tid destY (-1)
    let s := addEventPing s tid tank.x tank.y (-1) (-1)
    logTick s tid (tidName tid ++ " pings: no enemy")

/-- The sensor-resolution step of resolveTurn (SCAN then PING, P1 before
P2 in each group). -/
def sensorPhase (s : BattleState) (a1 a2 : Option ActionResult) : BattleState :=
  let s := match a1 with
    | some (.scan d t) => resolveScan s .P1 d t
    | _ => s
  let s := match a2 with
    | some (.scan d t) => resolveScan s .P2 d t
    | _ => s
  let s := match a1 with
    | some (.ping x y) => resolvePing s .P1 x y
    | _ => s
  match a2 with
  | some (.ping x y) => resolvePing s .P2 x y
  | _ => s

/-- The game-over checks at the end of resolveTurn (lines 235-265): HP
outcomes first, then stalemate (both pending actions HALT), then the turn
limit, the latter two only when the game is not already over. -/
def gameOverEval (maxTurns : Nat) (s : BattleState) : BattleState :=
  let s :=
    if s.tankP1.hp ≤ 0 ∧ s.tankP2.hp ≤ 0 then
      let s := logTick s .P1 "P1 destroyed!"
      let s := logTick s .P2 "P2 destroyed!"
      { s with
        isGameOver := true, winner := some "DRAW",
        log := s.log ++ ["=== DRAW - MUTUAL DESTRUCTION ==="] }
    else if s.tankP1.hp ≤ 0 then
      let s := logTick s .P1 "P1 destroyed!"
      { s with
        isGameOver := true, winner := some "P2",
        log := s.log ++ ["=== P2 WINS! ==="] }
    else if s.tankP2.hp ≤ 0 then
      let s := logTick s .P2 "P2 destroyed!"
      { s with
        isGameOver := true, winner := some "P1",
        log := s.log ++ ["=== P1 WINS! ==="] }
    else s
  let s :=
    if s.isGameOver = false ∧ s.pendingP1 = some .halt ∧ s.pendingP2 = some .halt then
      { s with
        isGameOver := true, winner := some "DRAW (STALEMATE)",
        log := s.log ++ ["=== DRAW - STALEMATE ==="] }
    else s
  if s.isGameOver = false ∧ s.turnCount ≥ maxTurns then
    { s with
      isGameOver := true, winner := some "DRAW (TURN LIMIT)",
      log := s.log ++ ["=== DRAW - TURN LIMIT ==="] }
  else s

/-- Clear both pending-action slots (the final statements of resolveTurn). -/
def clearPending (s : BattleState) : BattleState :=
  { s with pendingP1 := none, pendingP2 := none }

/-- Phases 1-4 of resolveTurn: turn bookkeeping, bullet advance, sensor
resolution, action resolution, movement conflict resolution. -/
def prePhases (s : BattleState) : BattleState :=
  let a1 := s.pendingP1
  let a2 := s.pendingP2
  let t1 := { s.tankP1 with lastFeedback := none }
  let t2 := { s.tankP2 with lastFeedback := none }
  let s := { s with
    turnCount := s.turnCount + 1, turnOpsP1 := 0, turnOpsP2 := 0,
    tankP1 := t1, tankP2 := t2 }
  let s := updateBullets s
  let s := sensorPhase s a1 a2
  let r1 := resolveAction s .P1 a1
  let r2 := resolveAction r1.1 .P2 a2
  applyMovements r2.1 r1.2 r2.2

/-- resolveTurn(): the full turn pipeline.  The maximum turn count is the
MAX_TURNS constant from the missing constants module, kept here as an
explicit parameter. -/
def resolveTurn (maxTurns : Nat) (s : BattleState) : BattleState :=
  clearPending (gameOverEval maxTurns (prePhases s))

/-- Render an instruction for the debug display
(`instr.opcode` plus the comma-joined args). -/
def instrText (i : Instr) : String :=
  i.opcode ++ " " ++ String.intercalate ", " i.args

/-- The debugIR string computed in stepCPU: the instruction at PC, or HALT
once PC has run past the end of the program. -/
def debugIRFor (c : CPU) (pc : Int) : String :=
  if pc < (c.program.length : Int) then
    match c.program.get? pc.toNat with
    | some i => instrText i
    | none => "HALT"
  else "HALT"

/-- Bump a tank's per-turn op counter. -/
def incTurnOps (s : BattleState) (tid : TankId) : BattleState :=
  match tid with
  | .P1 => { s with turnOpsP1 := s.turnOpsP1 + 1 }
  | .P2 => { s with turnOpsP2 := s.turnOpsP2 + 1 }

/-- stepCPU(tankId): one micro-step of a tank's CPU.  cpu.step() itself
lives in the missing CPU.js, so it is taken as an explicit function
parameter `stepFn` returning the updated CPU and the tagged result object
(`none` models a null result).  Faithful to lines 162-198: feedback is
cleared, the sensor registers are mirrored from the authoritative tank
state (ammoAvailable is 0 when the tank has a live bullet, else 1), the
debug fields are filled, the step runs, the op counters advance, and the
result is classified into lastAction / lastFeedback / the pending slot. -/
def stepCPU (stepFn : CPU → CPU × Option ActionResult) (s : BattleState)
    (tid : TankId) : BattleState × Option ActionResult :=
  let tank := getTank s tid
  match tank.cpu with
  | none => (s, none)
  | some cpu =>
    if tank.hp ≤ 0 then (s, none)
    else
      let tank := { tank with lastFeedback := none }
      let ammo : Int := if hasLiveBullet s tid then 0 else 1
      let cpu := cpu.updateTankState tank.x tank.y tank.facing tank.hp ammo
      let pc := cpu.getReg "PC"
      let tank := { tank with debugPC := pc, debugIR := some (debugIRFor cpu pc) }
      let out := stepFn cpu
      let result := out.2
      let tank := { tank with
        cpu := some out.1, totalOps := tank.totalOps + 1,
        debugRegisters := out.1.registers }
      let s := incTurnOps s tid
      match result with
      | some (.cpuOp op) =>
        (setTank s tid { tank with lastAction := some op }, result)
      | some (.wait r) =>
        let s := setTank s tid { tank with lastFeedback := some r }
        (setPending s tid result, result)
      | some a =>
        let s := setTank s tid { tank with lastAction := some a.typeString }
        (setPending s tid result, result)
      | none =>
        let s := setTank s tid { tank with lastAction := some "HALT" }
        (setPending s tid (some .halt), none)

/-- The {program, labels, error} record returned by Parser.parse; exactly
one of error or the program is meaningful (spec §4.2). -/
structure ParseOutput where
  program : List Instr
  labels : List (String × Nat)
  error : Option String
  deriving DecidableEq

/-- The record returned by loadCode. -/
structure LoadResult where
  success : Bool
  error : Option String
  p1Program : Option (List Instr)
  p2Program : Option (List Instr)
  deriving DecidableEq

/-- loadCode(p1Code, p2Code): tokenize and parse P1's source, install its
CPU, then tokenize and parse P2's source, install its CPU, log and reset.
A parse error is thrown and caught, returning {success: false}; state
mutations made before the throw are kept, exactly as in the source.
Tokenizer.js and Parser.js are not under src/, so both are taken as
function parameters (tokenize is total, spec §4.1). -/
def loadCode {τ : Type} (tokenize : String → τ) (parse : τ → ParseOutput)
    (s : BattleState) (p1Code p2Code : String) : BattleState × LoadResult :=
  let p1 := parse (tokenize p1Code)
  match p1.error with
  | some e =>
    (s, { success := false, error := some ("P1 Error: " ++ e),
          p1Program := none, p2Program := none })
  | none =>
    let s := setTank s .P1 { s.tankP1 with cpu := some (mkCPU p1.program p1.labels) }
    let p2 := parse (tokenize p2Code)
    match p2.error with
    | some e =>
      (s, { success := false, error := some ("P2 Error: " ++ e),
            p1Program := none, p2Program := none })
    | none =>
      let s := setTank s .P2 { s.tankP2 with cpu := some (mkCPU p2.program p2.labels) }
      let s := { s with log := s.log ++ ["Simulation Started."] }
      let s := resetTurnState s
      (s, { success := true, error := none,
            p1Program := some p1.program, p2Program := some p2.program })

/-- The snapshot record returned by getState, as a value. -/
structure GameState where
  tanks : Tank × Tank
  bullets : List Bullet
  log : List String
  events : List Event
  gameOver : Bool
  winner : Option String
  turnCount : Nat
  deriving DecidableEq

/-- getState(): the snapshot's value content (the aliasing structure of the
JavaScript copies is modelled separately below). -/
def getState (s : BattleState) : GameState :=
  { tanks := (s.tankP1, s.tankP2), bullets := s.bullets, log := s.log,
    events := s.events, gameOver := s.isGameOver, winner := s.winner,
    turnCount := s.turnCount }

/-- Outcome classification for one submitted movement intent, following the
claim's ordered-filter description (wall, then swap collision, then
same-target collision, then blocked, else the move succeeds). -/
inductive MoveOutcome where
  | wall
  | collision
  | blocked
  | moved
  deriving DecidableEq

/-- The ordered-filter outcome of one tank's intent `t1`, given its own and
the other tank's pre-move positions and the other tank's intent: (1) an
invalid target is a wall rejection; an intent whose partner was
wall-rejected is then judged alone; (2) mutual swap and (3) same-target are
collisions for both; (4) targeting the other tank's still-unmoved cell is
blocked; otherwise the intent survives. -/
def orderedFilterOutcome (g : Grid) (selfPos otherPos : Int × Int) (t1 : Intent)
    (m2 : Option Intent) : MoveOutcome :=
  if !(g.isValid t1.targetX t1.targetY) then .wall
  else
    match m2 with
    | none => if (t1.targetX, t1.targetY) = otherPos then .blocked else .moved
    | some t2 =>
      if !(g.isValid t2.targetX t2.targetY) then
        if (t1.targetX, t1.targetY) = otherPos then .blocked else .moved
      else if (t1.targetX, t1.targetY) = otherPos
          ∧ (t2.targetX, t2.targetY) = selfPos then .collision
      else if (t1.targetX, t1.targetY) = (t2.targetX, t2.targetY) then .collision
      else if (t1.targetX, t1.targetY) = otherPos then .blocked
      else .moved

/-- The feedback an outcome leaves on the tank (a surviving move leaves the
field as it was). -/
def outcomeFeedback (old : Option String) : MoveOutcome → Option String
  | .wall => some "WALL"
  | .collision => some "COLLISION"
  | .blocked => some "BLOCKED"
  | .moved => old

/-- The position an outcome produces, before the final clamp. -/
def outcomePos (old : Int × Int) (t : Intent) : MoveOutcome → Int × Int
  | .moved => (t.targetX, t.targetY)
  | _ => old

/-- Clamp a coordinate pair to grid bounds. -/
def clampPair (g : Grid) (p : Int × Int) : Int × Int :=
  (max 0 (min (g.width - 1) p.1), max 0 (min (g.height - 1) p.2))

/-- The cell a bullet occupies after i sub-steps. -/
def bulletPosAt (b : Bullet) (i : Nat) : Int × Int :=
  (b.x + b.dx * (i : Int), b.y + b.dy * (i : Int))

/-- Whether a living tank other than the bullet's owner stands on a cell. -/
def livingNonOwnerAt (s : BattleState) (b : Bullet) (p : Int × Int) : Prop :=
  (b.owner ≠ .P1 ∧ s.tankP1.hp > 0 ∧ (s.tankP1.x, s.tankP1.y) = p)
  ∨ (b.owner ≠ .P2 ∧ s.tankP2.hp > 0 ∧ (s.tankP2.x, s.tankP2.y) = p)

instance (s : BattleState) (b : Bullet) (p : Int × Int) :
    Decidable (livingNonOwnerAt s b p) := by
  unfold livingNonOwnerAt
  infer_instance

/-- The claim's death condition for the i-th sub-step of a turn: the bullet
dies there iff it exceeds max range, leaves the valid grid, or enters a
living non-owner tank's cell. -/
def bulletDiesAt (s : BattleState) (b : Bullet) (i : Nat) : Prop :=
  b.dist + i > BULLET_MAX_RANGE
  ∨ s.grid.isValid (bulletPosAt b i).1 (bulletPosAt b i).2 = false
  ∨ livingNonOwnerAt s b (bulletPosAt b i)

instance (s : BattleState) (b : Bullet) (i : Nat) :
    Decidable (bulletDiesAt s b i) := by
  unfold bulletDiesAt
  infer_instance

/-- A bullet advanced j sub-steps along its direction. -/
def advanceBullet (b : Bullet) (j : Nat) : Bullet :=
  { b with
    x := b.x + b.dx * (j : Int), y := b.y + b.dy * (j : Int),
    dist := b.dist + j }

/-- An unobstructed flight corridor: every cell the bullet can ever reach
within range (plus the overshoot sub-steps of the final turn) is a valid
grid cell with no living tank on it. -/
def unobstructedPath (s : BattleState) (b : Bullet) : Prop :=
  ∀ i : Nat, i < BULLET_MAX_RANGE + BULLET_SPEED + 1 → 1 ≤ i →
    s.grid.isValid (bulletPosAt b i).1 (bulletPosAt b i).2 = true
    ∧ (s.tankP1.hp ≤ 0 ∨ (s.tankP1.x, s.tankP1.y) ≠ bulletPosAt b i)
    ∧ (s.tankP2.hp ≤ 0 ∨ (s.tankP2.x, s.tankP2.y) ≠ bulletPosAt b i)

instance (s : BattleState) (b : Bullet) : Decidable (unobstructedPath s b) := by
  unfold unobstructedPath
  infer_instance

/-- Game-over classification following the claim's order: mutual
destruction, then a single destroyed tank, then stalemate, then the turn
limit, the last two only when the game is not already over. -/
inductive GameOutcome where
  | mutual
  | p2Wins
  | p1Wins
  | stalemate
  | turnLimit
  | ongoing
  deriving DecidableEq

/-- The claim's ordered game-over evaluation as a classification. -/
def gameOutcomeOf (maxTurns : Nat) (s : BattleState) : GameOutcome :=
  if s.tankP1.hp ≤ 0 ∧ s.tankP2.hp ≤ 0 then .mutual
  else if s.tankP1.hp ≤ 0 then .p2Wins
  else if s.tankP2.hp ≤ 0 then .p1Wins
  else if s.isGameOver = false ∧ s.pendingP1 = some .halt
      ∧ s.pendingP2 = some .halt then .stalemate
  else if s.isGameOver = false ∧ s.turnCount ≥ maxTurns then .turnLimit
  else .ongoing

/-- The (isGameOver, winner) pair an outcome stands for; `ongoing` keeps the
fields the state already has. -/
def outcomeFlags (s : BattleState) : GameOutcome → Bool × Option String
  | .mutual => (true, some "DRAW")
  | .p2Wins => (true, some "P2")
  | .p1Wins => (true, some "P1")
  | .stalemate => (true, some "DRAW (STALEMATE)")
  | .turnLimit => (true, some "DRAW (TURN LIMIT)")
  | .ongoing => (s.isGameOver, s.winner)

/-- At most one live bullet per owner: the bullet list never holds two
bullets with the same owner. -/
def onePerOwner (l : List Bullet) : Prop :=
  l.Pairwise (fun a b => a.owner ≠ b.owner)

/-- The states reachable through the public BattleManager operations,
starting from the constructor.  stepCPU's cpu.step and loadCode's
tokenizer/parser live in files missing from src/, so reachability
quantifies over arbitrary implementations of them. -/
inductive Reachable : BattleState → Prop where
  | init : Reachable initState
  | arena (s : BattleState) (level : Nat) :
      Reachable s → Reachable (setupArena s level)
  | load {τ : Type} (tokenize : String → τ) (parse : τ → ParseOutput)
      (s : BattleState) (c1 c2 : String) :
      Reachable s → Reachable (loadCode tokenize parse s c1 c2).1
  | reset (s : BattleState) : Reachable s → Reachable (resetTurnState s)
  | step (stepFn : CPU → CPU × Option ActionResult) (s : BattleState)
      (tid : TankId) : Reachable s → Reachable (stepCPU stepFn s tid).1
  | turn (maxTurns : Nat) (s : BattleState) :
      Reachable s → Reachable (resolveTurn maxTurns s)

/-- Reference-semantics model of the getState copies, from lines 275-285:
`JSON.parse(JSON.stringify(this.tanks))` deep-copies the tank records, but
`[...this.bullets]` and `[...this.events]` build new arrays holding the
same element objects.  Object identity is made explicit through a heap:
a cell index stands for a JavaScript object reference. -/
structure BulletHeap where
  cells : List Bullet
  deriving DecidableEq

/-- The engine's bullet array: a list of references into the heap. -/
structure EngineBullets where
  refs : List Nat
  deriving DecidableEq

/-- The snapshot's bullet array as built by `[...this.bullets]`: a fresh
array containing exactly the same references. -/
def getStateBulletRefs (e : EngineBullets) : List Nat :=
  e.refs

/-- Mutating a bullet object through a reference held by the snapshot
writes the shared heap cell. -/
def heapWrite (h : BulletHeap) (r : Nat) (b : Bullet) : BulletHeap :=
  { h with cells := h.cells.set r b }

/-- The bullet values the engine observes through its references. -/
def readBullets (h : BulletHeap) (e : EngineBullets) : List (Option Bullet) :=
  e.refs.map (fun r => h.cells.get? r)

/-- A concrete bullet for the aliasing scenario. -/
def bAlias : Bullet :=
  { id := 7, owner := .P1, x := 3, y := 4, dx := 1, dy := 0, dist := 2 }

/-- The same bullet after the snapshot holder writes x := 99 through its
reference. -/
def bAliasMut : Bullet := { bAlias with x := 99 }

/-- Concrete token type for the loadCode scenario: the tokenizer is the
identity on source text. -/
def tokenizeId : String → String := fun src => src

/-- Concrete parser for the loadCode scenario: the single source "ok"
parses to the empty program, anything else is a parse error. -/
def parseOkOnly : String → ParseOutput := fun t =>
  if t = "ok" then { program := [], labels := [], error := none }
  else { program := [], labels := [], error := some "bad program" }

/-- A pre-existing CPU for P1, distinguishable from a freshly installed
one by its non-empty register file. -/
def oldCPU : CPU := { registers := [("ACC", 5)], program := [], labels := [] }

/-- Starting state of the loadCode atomicity scenario: P1 already has a
CPU with visible register contents. -/
def sLoad : BattleState :=
  { initState with tankP1 := { initState.tankP1 with cpu := some oldCPU } }

/-- A state with a live bullet owned by P1 and a CPU installed, used to
observe the ammoAvailable argument of updateTankState. -/
def sAmmo : BattleState :=
  { initState with
    bullets := [{ id := 0, owner := .P1, x := 5, y := 4, dx := 1, dy := 0, dist := 0 }],
    tankP1 := { initState.tankP1 with cpu := some (mkCPU [] []) } }

/-- An identity step function: the CPU is left as updateTankState wrote it
and the result is null. -/
def stepFnId : CPU → CPU × Option ActionResult := fun c => (c, none)

/-- A wide corridor state for the max-range scenario: a 50-by-1 grid with
no walls and both tanks destroyed, so nothing can obstruct the bullet. -/
def sRange : BattleState :=
  { initState with
    grid := { width := 50, height := 1, walls := [] },
    tankP1 := { initState.tankP1 with hp := 0, y := 0 },
    tankP2 := { initState.tankP2 with hp := 0, y := 0 },
    bullets := [{ id := 0, owner := .P1, x := 0, y := 0, dx := 1, dy := 0, dist := 0 }] }

/-- The bullet of the max-range scenario. -/
def bRange : Bullet := { id := 0, owner := .P1, x := 0, y := 0, dx := 1, dy := 0, dist := 0 }

/-- The fixed wall layout of each arena level, as the claim states it:
level 2 is the center block, level 3 the scattered obstacles, and every
other level is empty. -/
def arenaWallsSpec (level : Nat) : List (Int × Int) :=
  if level = 2 then [(7, 4), (7, 5), (8, 4), (8, 5)]
  else if level = 3 then [(4, 2), (4, 7), (12, 2), (12, 7), (8, 1), (8, 8)]
  else []

/-- The cell immediately ahead of a tank along its facing. -/
def fireAhead (s : BattleState) (tid : TankId) : Int × Int :=
  ((getTank s tid).x + (DIRS (getTank s tid).facing).1,
   (getTank s tid).y + (DIRS (getTank s tid).facing).2)

/-- Whether the cell ahead is a wall or off-grid (the blocked FIRE case). -/
def fireBlockedC (s : BattleState) (tid : TankId) : Bool :=
  !(s.grid.isValid (fireAhead s tid).1 (fireAhead s tid).2)

/-- Whether the living enemy occupies the cell ahead (the direct-hit case). -/
def fireHitC (s : BattleState) (tid : TankId) : Prop :=
  (getTank s (enemyOf tid)).hp > 0
  ∧ (getTank s (enemyOf tid)).x = (fireAhead s tid).1
  ∧ (getTank s (enemyOf tid)).y = (fireAhead s tid).2

instance (s : BattleState) (tid : TankId) : Decidable (fireHitC s tid) := by
  unfold fireHitC
  infer_instance

/-- The bullet a successful FIRE spawns in the cell ahead. -/
def fireSpawnBullet (s : BattleState) (tid : TankId) : Bullet :=
  { id := s.eventIdCounter, owner := tid,
    x := (fireAhead s tid).1, y := (fireAhead s tid).2,
    dx := (DIRS (getTank s tid).facing).1, dy := (DIRS (getTank s tid).facing).2,
    dist := 0 }

/-- The explosion event a FIRE emits at the cell ahead. -/
def fireExplosion (s : BattleState) (tid : TankId) (hit : Option TankId) : Event :=
  { id := s.eventIdCounter, type := "EXPLOSION",
    x := (fireAhead s tid).1, y := (fireAhead s tid).2,
    owner := some tid, hitTank := hit, tankId := none,
    enemyX := none, enemyY := none }

/-- A fresh state in which both programs have halted. -/
def sHalt : BattleState :=
  { initState with pendingP1 := some .halt, pendingP2 := some .halt }

/-- The C9 invariant: the winner field is populated exactly when the game
is over. -/
def winnerConsistent (s : BattleState) : Prop :=
  s.winner.isSome = s.isGameOver

@[simp]
theorem getTank_setTank_self (s : BattleState) (tid : TankId) (t : Tank) :
    getTank (setTank s tid t) tid = t := by
  cases tid <;> rfl

@[simp]
theorem setTank_grid (s : BattleState) (tid : TankId) (t : Tank) :
    (setTank s tid t).grid = s.grid := by
  cases tid <;> rfl

@[simp]
theorem setTank_bullets (s : BattleState) (tid : TankId) (t : Tank) :
    (setTank s tid t).bullets = s.bullets := by
  cases tid <;> rfl

@[simp]
theorem setTank_events (s : BattleState) (tid : TankId) (t : Tank) :
    (setTank s tid t).events = s.events := by
  cases tid <;> rfl

@[simp]
theorem setTank_isGameOver (s : BattleState) (tid : TankId) (t : Tank) :
    (setTank s tid t).isGameOver = s.isGameOver := by
  cases tid <;> rfl

@[simp]
theorem setTank_winner (s : BattleState) (tid : TankId) (t : Tank) :
    (setTank s tid t).winner = s.winner := by
  cases tid <;> rfl

@[simp]
theorem setTank_pendingP1 (s : BattleState) (tid : TankId) (t : Tank) :
    (setTank s tid t).pendingP1 = s.pendingP1 := by
  cases tid <;> rfl

@[simp]
theorem setTank_pendingP2 (s : BattleState) (tid : TankId) (t : Tank) :
    (setTank s tid t).pendingP2 = s.pendingP2 := by
  cases tid <;> rfl

@[simp]
theorem setTank_eventIdCounter (s : BattleState) (tid : TankId) (t : Tank) :
    (setTank s tid t).eventIdCounter = s.eventIdCounter := by
  cases tid <;> rfl

@[simp]
theorem setTank_turnCount (s : BattleState) (tid : TankId) (t : Tank) :
    (setTank s tid t).turnCount = s.turnCount := by
  cases tid <;> rfl

@[simp]
theorem logTick_bullets (s : BattleState) (tid : TankId) (m : String) :
    (logTick s tid m).bullets = s.bullets := rfl

@[simp]
theorem logTick_tankP1 (s : BattleState) (tid : TankId) (m : String) :
    (logTick s tid m).tankP1 = s.tankP1 := rfl

@[simp]
theorem logTick_tankP2 (s : BattleState) (tid : TankId) (m : String) :
    (logTick s tid m).tankP2 = s.tankP2 := rfl

@[simp]
theorem logTick_events (s : BattleState) (tid : TankId) (m : String) :
    (logTick s tid m).events = s.events := rfl

@[simp]
theorem logTick_isGameOver (s : BattleState) (tid : TankId) (m : String) :
    (logTick s tid m).isGameOver = s.isGameOver := rfl

@[simp]
theorem logTick_winner (s : BattleState) (tid : TankId) (m : String) :
    (logTick s tid m).winner = s.winner := rfl

@[simp]
theorem logTick_pendingP1 (s : BattleState) (tid : TankId) (m : String) :
    (logTick s tid m).pendingP1 = s.pendingP1 := rfl

@[simp]
theorem logTick_pendingP2 (s : BattleState) (tid : TankId) (m : String) :
    (logTick s tid m).pendingP2 = s.pendingP2 := rfl

@[simp]
theorem logTick_grid (s : BattleState) (tid : TankId) (m : String) :
    (logTick s tid m).grid = s.grid := rfl

@[simp]
theorem logTick_eventIdCounter (s : BattleState) (tid : TankId) (m : String) :
    (logTick s tid m).eventIdCounter = s.eventIdCounter := rfl

@[simp]
theorem logTick_turnCount (s : BattleState) (tid : TankId) (m : String) :
    (logTick s tid m).turnCount = s.turnCount := rfl

@[simp]
theorem addEventExplosion_bullets (s : BattleState) (x y : Int) (o : TankId)
    (h : Option TankId) : (addEventExplosion s x y o h).bullets = s.bullets := rfl

@[simp]
theorem addEventExplosion_tankP1 (s : BattleState) (x y : Int) (o : TankId)
    (h : Option TankId) : (addEventExplosion s x y o h).tankP1 = s.tankP1 := rfl

@[simp]
theorem addEventExplosion_tankP2 (s : BattleState) (x y : Int) (o : TankId)
    (h : Option TankId) : (addEventExplosion s x y o h).tankP2 = s.tankP2 := rfl

@[simp]
theorem addEventExplosion_isGameOver (s : BattleState) (x y : Int) (o : TankId)
    (h : Option TankId) : (addEventExplosion s x y o h).isGameOver = s.isGameOver := rfl

@[simp]
theorem addEventExplosion_winner (s : BattleState) (x y : Int) (o : TankId)
    (h : Option TankId) : (addEventExplosion s x y o h).winner = s.winner := rfl

@[simp]
theorem addEventExplosion_pendingP1 (s : BattleState) (x y : Int) (o : TankId)
    (h : Option TankId) : (addEventExplosion s x y o h).pendingP1 = s.pendingP1 := rfl

@[simp]
theorem addEventExplosion_pendingP2 (s : BattleState) (x y : Int) (o : TankId)
    (h : Option TankId) : (addEventExplosion s x y o h).pendingP2 = s.pendingP2 := rfl

@[simp]
theorem addEventExplosion_grid (s : BattleState) (x y : Int) (o : TankId)
    (h : Option TankId) : (addEventExplosion s x y o h).grid = s.grid := rfl

@[simp]
theorem addEventPing_bullets (s : BattleState) (tid : TankId) (x y ex ey : Int) :
    (addEventPing s tid x y ex ey).bullets = s.bullets := rfl

@[simp]
theorem addEventPing_tankP1 (s : BattleState) (tid : TankId) (x y ex ey : Int) :
    (addEventPing s tid x y ex ey).tankP1 = s.tankP1 := rfl

@[simp]
theorem addEventPing_tankP2 (s : BattleState) (tid : TankId) (x y ex ey : Int) :
    (addEventPing s tid x y ex ey).tankP2 = s.tankP2 := rfl

@[simp]
theorem addEventPing_isGameOver (s : BattleState) (tid : TankId) (x y ex ey : Int) :
    (addEventPing s tid x y ex ey).isGameOver = s.isGameOver := rfl

@[simp]
theorem addEventPing_winner (s : BattleState) (tid : TankId) (x y ex ey : Int) :
    (addEventPing s tid x y ex ey).winner = s.winner := rfl

@[simp]
theorem addEventPing_pendingP1 (s : BattleState) (tid : TankId) (x y ex ey : Int) :
    (addEventPing s tid x y ex ey).pendingP1 = s.pendingP1 := rfl

@[simp]
theorem addEventPing_pendingP2 (s : BattleState) (tid : TankId) (x y ex ey : Int) :
    (addEventPing s tid x y ex ey).pendingP2 = s.pendingP2 := rfl

@[simp]
theorem setFeedback_bullets (s : BattleState) (tid : TankId) (v : Option String) :
    (setFeedback s tid v).bullets = s.bullets := by
  cases tid <;> rfl

@[simp]
theorem setFeedback_grid (s : BattleState) (tid : TankId) (v : Option String) :
    (setFeedback s tid v).grid = s.grid := by
  cases tid <;> rfl

@[simp]
theorem setFeedback_isGameOver (s : BattleState) (tid : TankId) (v : Option String) :
    (setFeedback s tid v).isGameOver = s.isGameOver := by
  cases tid <;> rfl

@[simp]
theorem setFeedback_winner (s : BattleState) (tid : TankId) (v : Option String) :
    (setFeedback s tid v).winner = s.winner := by
  cases tid <;> rfl

@[simp]
theorem setFeedback_pendingP1 (s : BattleState) (tid : TankId) (v : Option String) :
    (setFeedback s tid v).pendingP1 = s.pendingP1 := by
  cases tid <;> rfl

@[simp]
theorem setFeedback_pendingP2 (s : BattleState) (tid : TankId) (v : Option String) :
    (setFeedback s tid v).pendingP2 = s.pendingP2 := by
  cases tid <;> rfl

@[simp]
theorem setFeedback_events (s : BattleState) (tid : TankId) (v : Option String) :
    (setFeedback s tid v).events = s.events := by
  cases tid <;> rfl

@[simp]
theorem setFeedback_eventIdCounter (s : BattleState) (tid : TankId) (v : Option String) :
    (setFeedback s tid v).eventIdCounter = s.eventIdCounter := by
  cases tid <;> rfl

@[simp]
theorem setCpuReg_bullets (s : BattleState) (tid : TankId) (n : String) (v : Int) :
    (setCpuReg s tid n v).bullets = s.bullets := by
  cases tid <;> rfl

@[simp]
theorem setCpuReg_isGameOver (s : BattleState) (tid : TankId) (n : String) (v : Int) :
    (setCpuReg s tid n v).isGameOver = s.isGameOver := by
  cases tid <;> rfl

@[simp]
theorem setCpuReg_winner (s : BattleState) (tid : TankId) (n : String) (v : Int) :
    (setCpuReg s tid n v).winner = s.winner := by
  cases tid <;> rfl

@[simp]
theorem setCpuReg_pendingP1 (s : BattleState) (tid : TankId) (n : String) (v : Int) :
    (setCpuReg s tid n v).pendingP1 = s.pendingP1 := by
  cases tid <;> rfl

@[simp]
theorem setCpuReg_pendingP2 (s : BattleState) (tid : TankId) (n : String) (v : Int) :
    (setCpuReg s tid n v).pendingP2 = s.pendingP2 := by
  cases tid <;> rfl

/-- C10: setupArena(level) rewrites only the grid's wall set, installing
the fixed layout of the level (the center block for 2, the scattered
obstacles for 3, empty otherwise); tanks, bullets, events, logs, pending
actions, turn count and game-over status are unchanged. -/
theorem setupArena_mutates_only_walls (s : BattleState) (level : Nat) :
    setupArena s level
      = { s with grid := { s.grid with walls := arenaWallsSpec level } } := by
  unfold setupArena arenaWallsSpec Grid.addWall
  split_ifs <;> rfl

/-- C6 (code-bug evidence): loadCode with a valid first program and an
invalid second program reports success = false, yet the first tank's CPU
has already been replaced by the freshly parsed one - the failed load is
observable, so the reload is not atomic. -/
theorem loadCode_partial_state_on_p2_error :
    (loadCode tokenizeId parseOkOnly sLoad "ok" "nope").2.success = false
    ∧ (loadCode tokenizeId parseOkOnly sLoad "ok" "nope").1.tankP1.cpu
        = some (mkCPU [] [])
    ∧ sLoad.tankP1.cpu = some oldCPU
    ∧ (loadCode tokenizeId parseOkOnly sLoad "ok" "nope").1.tankP1.cpu
        ≠ sLoad.tankP1.cpu := by
  refine ⟨rfl, rfl, rfl, ?_⟩
  decide

/-- C7 (code-bug evidence): the snapshot's bullet array built by
`[...this.bullets]` holds the same object references as the engine's
array; writing one bullet object through the snapshot's reference changes
what the engine reads back, so the snapshot is not a fully independent
value copy. -/
theorem getState_bullet_objects_shared :
    getStateBulletRefs { refs := [0] } = [0]
    ∧ readBullets { cells := [bAlias] } { refs := [0] } = [some bAlias]
    ∧ readBullets (heapWrite { cells := [bAlias] } 0 bAliasMut) { refs := [0] }
        = [some bAliasMut]
    ∧ bAliasMut ≠ bAlias := by
  refine ⟨rfl, rfl, rfl, ?_⟩
  decide

/-- C8 (counterexample): with a live bullet owned by P1 in flight, stepCPU
passes ammoAvailable = 0 to updateTankState - the AMMO sensor register
after the micro-step reads 0, not 1 as the claim states. -/
theorem stepCPU_ammo_claim_false :
    sAmmo.bullets.any (fun b => decide (b.owner = TankId.P1)) = true
    ∧ ((stepCPU stepFnId sAmmo TankId.P1).1.tankP1.cpu.map
        (fun c => c.getReg "AMMO")) = some 0
    ∧ ((stepCPU stepFnId sAmmo TankId.P1).1.tankP1.cpu.map
        (fun c => c.getReg "AMMO")) ≠ some 1 := by
  refine ⟨rfl, rfl, ?_⟩
  decide

/-- C8 (amended): on every micro-step of a tank with a CPU and positive HP,
the CPU handed to cpu.step (and stored back, together with step's result)
is exactly the one updateTankState produced from the authoritative tank
x, y, facing and hp, with ammoAvailable = 1 exactly when no live bullet
owned by the tank exists (0 when one is in flight); the sensor registers
then read back those authoritative values. -/
theorem stepCPU_mirrors_state_before_step (f : CPU → CPU × Option ActionResult)
    (s : BattleState) (tid : TankId) (c : CPU)
    (hc : (getTank s tid).cpu = some c) (hhp : 0 < (getTank s tid).hp) :
    (getTank (stepCPU f s tid).1 tid).cpu
      = some (f (c.updateTankState (getTank s tid).x (getTank s tid).y
          (getTank s tid).facing (getTank s tid).hp
          (if hasLiveBullet s tid then 0 else 1))).1
    ∧ (stepCPU f s tid).2
      = (f (c.updateTankState (getTank s tid).x (getTank s tid).y
          (getTank s tid).facing (getTank s tid).hp
          (if hasLiveBullet s tid then 0 else 1))).2
    ∧ (c.updateTankState (getTank s tid).x (getTank s tid).y
        (getTank s tid).facing (getTank s tid).hp
        (if hasLiveBullet s tid then 0 else 1)).getReg "AMMO"
      = (if hasLiveBullet s tid then 0 else 1)
    ∧ (c.updateTankState (getTank s tid).x (getTank s tid).y
        (getTank s tid).facing (getTank s tid).hp
        (if hasLiveBullet s tid then 0 else 1)).getReg "PX" = (getTank s tid).x
    ∧ (c.updateTankState (getTank s tid).x (getTank s tid).y
        (getTank s tid).facing (getTank s tid).hp
        (if hasLiveBullet s tid then 0 else 1)).getReg "PY" = (getTank s tid).y
    ∧ (c.updateTankState (getTank s tid).x (getTank s tid).y
        (getTank s tid).facing (getTank s tid).hp
        (if hasLiveBullet s tid then 0 else 1)).getReg "DIR"
      = ((getTank s tid).facing : Int)
    ∧ (c.updateTankState (getTank s tid).x (getTank s tid).y
        (getTank s tid).facing (getTank s tid).hp
        (if hasLiveBullet s tid then 0 else 1)).getReg "HP" = (getTank s tid).hp := by
  have hnle : ¬ (getTank s tid).hp ≤ 0 := by omega
  refine ⟨?_, ?_, rfl, rfl, rfl, rfl, rfl⟩ <;>
  · simp only [stepCPU, hc, hnle, if_false]
    rcases h2 : (f (c.updateTankState (getTank s tid).x (getTank s tid).y
        (getTank s tid).facing (getTank s tid).hp
        (if hasLiveBullet s tid then 0 else 1))).2 with _ | a
    · cases tid <;> simp_all [setTank, setPending, incTurnOps, getTank]
    · cases a <;> cases tid <;> simp_all [setTank, setPending, incTurnOps, getTank]

/-- Witness for the amended C8 theorem at a concrete state with a live P1
bullet and an installed CPU. -/
theorem stepCPU_mirrors_state_before_step_witness :
    (getTank (stepCPU stepFnId sAmmo TankId.P1).1 TankId.P1).cpu
      = some (stepFnId ((mkCPU [] []).updateTankState (getTank sAmmo TankId.P1).x
          (getTank sAmmo TankId.P1).y (getTank sAmmo TankId.P1).facing
          (getTank sAmmo TankId.P1).hp
          (if hasLiveBullet sAmmo TankId.P1 then 0 else 1))).1 :=
  (stepCPU_mirrors_state_before_step stepFnId sAmmo TankId.P1 (mkCPU [] [])
    rfl (by decide)).1

/-- C3: resolving a FIRE action: with a live bullet the tank only gets
"RELOADING" feedback; otherwise, if the cell ahead is a wall or off-grid an
explosion is emitted there and feedback is "BLOCKED"; if the living enemy
occupies that cell it loses one HP and an explosion referencing it is
emitted; otherwise a new bullet spawns in that cell along the facing. -/
theorem resolveAction_fire_cases (s : BattleState) (tid : TankId) :
    (resolveAction s tid (some .fire)).2 = none
    ∧ (getTank (resolveAction s tid (some .fire)).1 tid).lastFeedback
        = (if hasLiveBullet s tid then some "RELOADING"
           else if fireBlockedC s tid then some "BLOCKED"
           else (getTank s tid).lastFeedback)
    ∧ (resolveAction s tid (some .fire)).1.bullets
        = (if hasLiveBullet s tid ∨ fireBlockedC s tid = true ∨ fireHitC s tid
           then s.bullets
           else s.bullets ++ [fireSpawnBullet s tid])
    ∧ (getTank (resolveAction s tid (some .fire)).1 (enemyOf tid)).hp
        = (if ¬ hasLiveBullet s tid ∧ fireBlockedC s tid = false ∧ fireHitC s tid
           then (getTank s (enemyOf tid)).hp - 1
           else (getTank s (enemyOf tid)).hp)
    ∧ (resolveAction s tid (some .fire)).1.events
        = (if hasLiveBullet s tid then s.events
           else if fireBlockedC s tid then s.events ++ [fireExplosion s tid none]
           else if fireHitC s tid then
             s.events ++ [fireExplosion s tid (some (enemyOf tid))]
           else s.events) := by
  cases tid <;>
    simp only [resolveAction, fireBlockedC, fireHitC, fireAhead, fireSpawnBullet,
      fireExplosion, getTank, setTank, setFeedback, enemyOf] <;>
    split_ifs <;>
    simp_all [getTank, setTank, setFeedback, logTick, addEventExplosion, enemyOf]

/-- C4: resolveTurn ends with the game-over evaluation followed only by the
clearing of the pending slots; that evaluation realizes, in order: mutual
destruction (DRAW), a single destroyed tank (the other wins), stalemate on
two pending HALTs, and the turn limit - the last two only when the game is
not already over.  In particular two programs that have both halted (with
no bullets in flight and both tanks alive) end the game immediately with
winner "DRAW (STALEMATE)". -/
theorem resolveTurn_game_over_order (m : Nat) (s : BattleState) :
    resolveTurn m s = clearPending (gameOverEval m (prePhases s))
    ∧ (∀ t : BattleState,
        ((gameOverEval m t).isGameOver, (gameOverEval m t).winner)
          = outcomeFlags t (gameOutcomeOf m t))
    ∧ (s.bullets = [] → s.isGameOver = false → 0 < s.tankP1.hp →
        0 < s.tankP2.hp → s.pendingP1 = some .halt → s.pendingP2 = some .halt →
        (resolveTurn m s).isGameOver = true
        ∧ (resolveTurn m s).winner = some "DRAW (STALEMATE)") := by
  refine ⟨rfl, ?_, ?_⟩
  · intro t
    by_cases hp1 : t.tankP1.hp ≤ 0 <;> by_cases hp2 : t.tankP2.hp ≤ 0
    · simp [gameOverEval, gameOutcomeOf, outcomeFlags, hp1, hp2, logTick]
    · simp [gameOverEval, gameOutcomeOf, outcomeFlags, hp1, hp2, logTick]
    · simp [gameOverEval, gameOutcomeOf, outcomeFlags, hp1, hp2, logTick]
    · by_cases hD : t.isGameOver = false ∧ t.pendingP1 = some .halt
          ∧ t.pendingP2 = some .halt
      · simp [gameOverEval, gameOutcomeOf, outcomeFlags, hp1, hp2, hD, logTick]
      · by_cases hE : t.isGameOver = false ∧ t.turnCount ≥ m
        · have hph : ¬(t.pendingP1 = some ActionResult.halt
              ∧ t.pendingP2 = some ActionResult.halt) := fun h => hD ⟨hE.1, h⟩
          simp [gameOverEval, gameOutcomeOf, outcomeFlags, hp1, hp2, hD, hph,
            hE.1, hE.2, logTick]
        · simp [gameOverEval, gameOutcomeOf, outcomeFlags, hp1, hp2, hD, hE, logTick]
  · intro hb hgo h1 h2 hp1 hp2
    have hpre : (prePhases s).isGameOver = false
        ∧ (prePhases s).pendingP1 = some .halt
        ∧ (prePhases s).pendingP2 = some .halt
        ∧ 0 < (prePhases s).tankP1.hp ∧ 0 < (prePhases s).tankP2.hp := by
      unfold prePhases sensorPhase resolveAction applyMovements updateBullets
      simp [hb, hp1, hp2, hgo, wallRejected, clampTank, setTank, h1, h2]
    have hno1 : ¬ (prePhases s).tankP1.hp ≤ 0 := by omega
    have hno2 : ¬ (prePhases s).tankP2.hp ≤ 0 := by omega
    unfold resolveTurn clearPending gameOverEval
    simp [hno1, hno2, hpre.1, hpre.2.1, hpre.2.2.1]

/-- Witness for C4 at a fresh state whose two programs have halted: the
turn ends the game as a stalemate draw. -/
theorem resolveTurn_game_over_order_witness :
    (resolveTurn 100 sHalt).isGameOver = true
    ∧ (resolveTurn 100 sHalt).winner = some "DRAW (STALEMATE)" :=
  (resolveTurn_game_over_order 100 sHalt).2.2 rfl rfl (by decide) (by decide) rfl rfl


theorem bulletPosAt_advance (b : Bullet) (m j : Nat) :
    bulletPosAt (advanceBullet b m) j = bulletPosAt b (m + j) := by
  unfold bulletPosAt advanceBullet
  simp only [Prod.mk.injEq]
  constructor <;> push_cast <;> ring

theorem advanceBullet_zero (b : Bullet) : advanceBullet b 0 = b := by
  simp [advanceBullet]

theorem advanceBullet_one (b : Bullet) :
    advanceBullet b 1 = { b with x := b.x + b.dx, y := b.y + b.dy, dist := b.dist + 1 } := by
  simp [advanceBullet]

theorem advanceBullet_advance (b : Bullet) (m j : Nat) :
    advanceBullet (advanceBullet b m) j = advanceBullet b (m + j) := by
  unfold advanceBullet
  simp only [Bullet.mk.injEq]
  and_intros <;> first
  | trivial
  | (push_cast; ring)

theorem bulletDiesAt_advance (s : BattleState) (b : Bullet) (m j : Nat) :
    bulletDiesAt s (advanceBullet b m) j ↔ bulletDiesAt s b (m + j) := by
  unfold bulletDiesAt
  rw [bulletPosAt_advance]
  have hd : (advanceBullet b m).dist + j = b.dist + (m + j) := by
    simp [advanceBullet]
    omega
  rw [hd]
  have ho : livingNonOwnerAt s (advanceBullet b m) (bulletPosAt b (m + j))
      ↔ livingNonOwnerAt s b (bulletPosAt b (m + j)) := by
    unfold livingNonOwnerAt
    simp [advanceBullet]
  rw [ho]

theorem bulletSubStep_spec (s : BattleState) (b : Bullet) :
    ((bulletSubStep s b).2.2 = true ↔ ¬ bulletDiesAt s b 1)
    ∧ (bulletSubStep s b).2.1 = advanceBullet b 1
    ∧ (¬ bulletDiesAt s b 1 → (bulletSubStep s b).1 = s) := by
  have hpos : bulletPosAt b 1 = (b.x + b.dx, b.y + b.dy) := by
    simp [bulletPosAt]
  by_cases hr : b.dist + 1 > BULLET_MAX_RANGE
  · have hd : bulletDiesAt s b 1 := Or.inl hr
    simp [bulletSubStep, advanceBullet_one, hr, hd]
  · by_cases hv : s.grid.isValid (b.x + b.dx) (b.y + b.dy) = true
    · rcases hob : b.owner with _ | _
      · -- owner P1: only P2 can be hit
        by_cases c2 : s.tankP2.hp > 0 ∧ s.tankP2.x = b.x + b.dx ∧ s.tankP2.y = b.y + b.dy
        · have hd : bulletDiesAt s b 1 := by
            unfold bulletDiesAt livingNonOwnerAt
            rw [hpos, hob]
            exact Or.inr (Or.inr (Or.inr (by simp [c2.1, c2.2.1, c2.2.2])))
          simp [bulletSubStep, bulletHitTank, advanceBullet_one, hr, hv, hob,
            getTank, setTank, c2, hd]
        · have hd : ¬ bulletDiesAt s b 1 := by
            unfold bulletDiesAt livingNonOwnerAt
            rw [hpos, hob]
            push_neg
            refine ⟨by omega, by simp [hv], by simp, fun _ h2 h3 => ?_⟩
            simp only [Prod.mk.injEq] at h3
            exact c2 ⟨h2, h3.1, h3.2⟩
          simp [bulletSubStep, bulletHitTank, advanceBullet_one, hr, hv, hob,
            getTank, setTank, c2, hd]
      · -- owner P2: only P1 can be hit
        by_cases c1 : s.tankP1.hp > 0 ∧ s.tankP1.x = b.x + b.dx ∧ s.tankP1.y = b.y + b.dy
        · have hd : bulletDiesAt s b 1 := by
            unfold bulletDiesAt livingNonOwnerAt
            rw [hpos, hob]
            exact Or.inr (Or.inr (Or.inl (by simp [c1.1, c1.2.1, c1.2.2])))
          simp [bulletSubStep, bulletHitTank, advanceBullet_one, hr, hv, hob,
            getTank, setTank, c1, hd]
        · have hd : ¬ bulletDiesAt s b 1 := by
            unfold bulletDiesAt livingNonOwnerAt
            rw [hpos, hob]
            push_neg
            refine ⟨by omega, by simp [hv], fun _ h2 h3 => ?_, by simp⟩
            simp only [Prod.mk.injEq] at h3
            exact c1 ⟨h2, h3.1, h3.2⟩
          simp [bulletSubStep, bulletHitTank, advanceBullet_one, hr, hv, hob,
            getTank, setTank, c1, hd]
    · have hd : bulletDiesAt s b 1 := by
        unfold bulletDiesAt
        rw [hpos]
        exact Or.inr (Or.inl (by simpa using hv))
      simp [bulletSubStep, advanceBullet_one, hr, hv, hd]

theorem bulletSubStep_alive (s : BattleState) (b : Bullet) (h : ¬ bulletDiesAt s b 1) :
    bulletSubStep s b = (s, advanceBullet b 1, true) := by
  obtain ⟨hiff, hbul, hst⟩ := bulletSubStep_spec s b
  have h1 : (bulletSubStep s b).1 = s := hst h
  have h2 : (bulletSubStep s b).2.2 = true := hiff.mpr h
  rcases hE : bulletSubStep s b with ⟨s1, b1, a1⟩
  rw [hE] at h1 hbul h2
  simp_all

theorem bulletSubStep_dead (s : BattleState) (b : Bullet) (h : bulletDiesAt s b 1) :
    (bulletSubStep s b).2.2 = false := by
  obtain ⟨hiff, _, _⟩ := bulletSubStep_spec s b
  rcases hb : (bulletSubStep s b).2.2
  · rfl
  · exact absurd h (hiff.mp hb)

theorem bulletSubStep_range (s : BattleState) (b : Bullet)
    (hr : b.dist + 1 > BULLET_MAX_RANGE) :
    bulletSubStep s b = (s, advanceBullet b 1, false) := by
  simp [bulletSubStep, advanceBullet_one, hr]

theorem bulletSubStep_terrain (s : BattleState) (b : Bullet)
    (hr : ¬ b.dist + 1 > BULLET_MAX_RANGE)
    (hv : s.grid.isValid (b.x + b.dx) (b.y + b.dy) = false) :
    bulletSubStep s b
      = (addEventExplosion s (b.x + b.dx) (b.y + b.dy) b.owner none,
         advanceBullet b 1, false) := by
  simp [bulletSubStep, advanceBullet_one, hr, hv]

theorem bulletLoop_two (s : BattleState) (b : Bullet) :
    bulletLoop s b true BULLET_SPEED
      = (if (bulletSubStep s b).2.2 = true then
           bulletSubStep (bulletSubStep s b).1 (bulletSubStep s b).2.1
         else bulletSubStep s b) := by
  rcases h1 : bulletSubStep s b with ⟨s1, b1, a1⟩
  cases a1 <;> simp [bulletLoop, BULLET_SPEED, h1] <;>
    rcases h2 : bulletSubStep s1 b1 with ⟨s2, b2, a2⟩ <;> cases a2 <;> simp [bulletLoop, h2]

theorem bulletLoop_spec (s : BattleState) (b : Bullet) :
    ((bulletLoop s b true BULLET_SPEED).2.2 = true
      ↔ (¬ bulletDiesAt s b 1 ∧ ¬ bulletDiesAt s b 2))
    ∧ (¬ bulletDiesAt s b 1 → ¬ bulletDiesAt s b 2 →
        bulletLoop s b true BULLET_SPEED = (s, advanceBullet b 2, true)) := by
  rw [bulletLoop_two]
  by_cases hd1 : bulletDiesAt s b 1
  · have hD := bulletSubStep_dead s b hd1
    rw [hD]
    constructor
    · simp [hD, hd1]
    · intro hx
      exact absurd hd1 hx
  · have hA := bulletSubStep_alive s b hd1
    have hd2e : bulletDiesAt s (advanceBullet b 1) 1 ↔ bulletDiesAt s b 2 :=
      bulletDiesAt_advance s b 1 1
    by_cases hd2 : bulletDiesAt s b 2
    · have hD2 := bulletSubStep_dead s (advanceBullet b 1) (hd2e.mpr hd2)
      simp only [hA]
      constructor
      · simp [hD2, hd1, hd2]
      · intro _ hx
        exact absurd hd2 hx
    · have hA2 := bulletSubStep_alive s (advanceBullet b 1) (fun hh => hd2 (hd2e.mp hh))
      simp only [hA]
      simp [hA2, advanceBullet_advance, hd1, hd2]

theorem updateBullets_nil (s : BattleState) (h : s.bullets = []) : updateBullets s = s := by
  rcases s with ⟨g, t1, t2, bl, lg, ev, go, w, p1, p2, o1, o2, tc, ec⟩
  simp only at h
  subst h
  rfl

theorem bulletDiesAt_bullets_irrelevant (s : BattleState) (l : List Bullet)
    (b : Bullet) (i : Nat) :
    bulletDiesAt { s with bullets := l } b i ↔ bulletDiesAt s b i := Iff.rfl

theorem updateBullets_singleton_free (s : BattleState) (b : Bullet)
    (hb : s.bullets = [b])
    (h1 : b.dist + 1 ≤ BULLET_MAX_RANGE → ¬ bulletDiesAt s b 1)
    (h2 : b.dist + 2 ≤ BULLET_MAX_RANGE → ¬ bulletDiesAt s b 2) :
    updateBullets s
      = { s with bullets := if b.dist + 2 ≤ BULLET_MAX_RANGE
            then [advanceBullet b 2] else [] } := by
  have hu : updateBullets s
      = { (bulletLoop s b true BULLET_SPEED).1 with
          bullets := if (bulletLoop s b true BULLET_SPEED).2.2
            then [(bulletLoop s b true BULLET_SPEED).2.1] else [] } := by
    unfold updateBullets
    rw [hb]
    rcases hL : bulletLoop s b true BULLET_SPEED with ⟨s1, b1, a1⟩
    cases a1 <;> simp [hL, List.foldl]
  by_cases hin : b.dist + 2 ≤ BULLET_MAX_RANGE
  · have hd1 : ¬ bulletDiesAt s b 1 := h1 (by omega)
    have hd2 : ¬ bulletDiesAt s b 2 := h2 hin
    rw [hu, (bulletLoop_spec s b).2 hd1 hd2]
    simp [hin]
  · by_cases hr1 : b.dist + 1 > BULLET_MAX_RANGE
    · have hL : bulletLoop s b true BULLET_SPEED = (s, advanceBullet b 1, false) := by
        rw [bulletLoop_two, bulletSubStep_range s b hr1]
        simp
      rw [hu, hL]
      simp [hin]
    · have hd1 : ¬ bulletDiesAt s b 1 := h1 (by omega)
      have hA := bulletSubStep_alive s b hd1
      have hr2 : (advanceBullet b 1).dist + 1 > BULLET_MAX_RANGE := by
        simp [advanceBullet]
        omega
      have hL : bulletLoop s b true BULLET_SPEED = (s, advanceBullet b 2, false) := by
        rw [bulletLoop_two, hA]
        simp [bulletSubStep_range s (advanceBullet b 1) hr2, advanceBullet_advance]
      rw [hu, hL]
      simp [hin]

theorem bulletSubStep_hits_tank (s : BattleState) (b : Bullet) (tid : TankId)
    (hne : tid ≠ b.owner)
    (hr : ¬ b.dist + 1 > BULLET_MAX_RANGE)
    (hv : s.grid.isValid (b.x + b.dx) (b.y + b.dy) = true)
    (hcond : (getTank s tid).hp > 0 ∧ (getTank s tid).x = b.x + b.dx
      ∧ (getTank s tid).y = b.y + b.dy) :
    bulletSubStep s b
      = (addEventExplosion
          (logTick (setTank s tid { getTank s tid with hp := (getTank s tid).hp - 1 })
            b.owner
            (tidName b.owner ++ " bullet hits " ++ tidName tid ++ "! HP: "
              ++ toString ((getTank s tid).hp - 1)))
          (b.x + b.dx) (b.y + b.dy) b.owner (some tid),
         advanceBullet b 1, false) := by
  cases tid <;> rcases hob : b.owner with _ | _
  · exact absurd hob.symm (by simpa using hne)
  · simp [bulletSubStep, bulletHitTank, advanceBullet_one, hr, hv, hob, getTank,
      setTank, hcond.1, hcond.2.1, hcond.2.2] at hcond ⊢
    simp [hcond.1, hcond.2.1, hcond.2.2]
  · simp [bulletSubStep, bulletHitTank, advanceBullet_one, hr, hv, hob, getTank,
      setTank, hcond.1, hcond.2.1, hcond.2.2] at hcond ⊢
    simp [hcond.1, hcond.2.1, hcond.2.2]
  · exact absurd hob.symm (by simpa using hne)

theorem unobstructedPath_no_death (s : BattleState) (b : Bullet)
    (hu : unobstructedPath s b) (i : Nat) (h1 : 1 ≤ i)
    (hlt : i < BULLET_MAX_RANGE + BULLET_SPEED + 1)
    (hrange : ¬ b.dist + i > BULLET_MAX_RANGE) :
    ¬ bulletDiesAt s b i := by
  intro hdie
  obtain ⟨hvalid, hc1, hc2⟩ := hu i hlt h1
  rcases hdie with h | h | h
  · omega
  · rw [hvalid] at h
    cases h
  · rcases h with ⟨_, hp, hpos⟩ | ⟨_, hp, hpos⟩
    · rcases hc1 with hle | hne
      · omega
      · exact hne hpos
    · rcases hc2 with hle | hne
      · omega
      · exact hne hpos

theorem updateBullets_iterate_unobstructed (s : BattleState) (b : Bullet)
    (hb : s.bullets = [b]) (hd : b.dist = 0) (hu : unobstructedPath s b) :
    ∀ k : Nat, updateBullets^[k] s
      = { s with bullets := if BULLET_SPEED * k ≤ BULLET_MAX_RANGE
            then [advanceBullet b (BULLET_SPEED * k)] else [] } := by
  intro k
  induction k with
  | zero =>
    simp only [Function.iterate_zero, id_eq, Nat.mul_zero, Nat.zero_le, if_pos,
      advanceBullet_zero, BULLET_MAX_RANGE]
    rw [← hb]
  | succ k ih =>
    rw [Function.iterate_succ_apply', ih]
    by_cases hk : BULLET_SPEED * k ≤ BULLET_MAX_RANGE
    · rw [if_pos hk]
      have hdist : (advanceBullet b (BULLET_SPEED * k)).dist = BULLET_SPEED * k := by
        simp [advanceBullet, hd]
      have hT : ∀ j, 1 ≤ j → j ≤ BULLET_SPEED →
          (advanceBullet b (BULLET_SPEED * k)).dist + j ≤ BULLET_MAX_RANGE →
          ¬ bulletDiesAt { s with bullets := [advanceBullet b (BULLET_SPEED * k)] }
            (advanceBullet b (BULLET_SPEED * k)) j := by
        intro j hj1 hj2 hjr
        rw [hdist] at hjr
        rw [bulletDiesAt_bullets_irrelevant, bulletDiesAt_advance]
        exact unobstructedPath_no_death s b hu _ (by omega)
          (by revert hjr hj2 hk; simp [BULLET_SPEED, BULLET_MAX_RANGE]; omega)
          (by revert hjr; simp [BULLET_SPEED, BULLET_MAX_RANGE]; omega)
      have happ := updateBullets_singleton_free
        { s with bullets := [advanceBullet b (BULLET_SPEED * k)] }
        (advanceBullet b (BULLET_SPEED * k)) (by simp)
        (fun h => hT 1 (by omega) (by simp [BULLET_SPEED]) h)
        (fun h => hT 2 (by omega) (by simp [BULLET_SPEED]) h)
      rw [happ]
      have harg : (advanceBullet b (BULLET_SPEED * k)).dist + 2
          = BULLET_SPEED * (k + 1) := by
        rw [hdist]
        simp only [BULLET_SPEED]
        omega
      have e0 : BULLET_SPEED * k + 2 = BULLET_SPEED * (k + 1) := by
        simp only [BULLET_SPEED]
        omega
      have e1 : advanceBullet (advanceBullet b (BULLET_SPEED * k)) 2
          = advanceBullet b (BULLET_SPEED * (k + 1)) := by
        rw [advanceBullet_advance, e0]
      rw [harg, e1]
    · rw [if_neg hk]
      rw [updateBullets_nil _ (by simp)]
      have hnot : ¬ BULLET_SPEED * (k + 1) ≤ BULLET_MAX_RANGE := by
        revert hk
        simp [BULLET_SPEED, BULLET_MAX_RANGE]
        omega
      rw [if_neg hnot]

theorem updateBullets_singleton (s : BattleState) (b : Bullet) (hb : s.bullets = [b]) :
    updateBullets s
      = { (bulletLoop s b true BULLET_SPEED).1 with
          bullets := if (bulletLoop s b true BULLET_SPEED).2.2
            then [(bulletLoop s b true BULLET_SPEED).2.1] else [] } := by
  unfold updateBullets
  rw [hb]
  rcases hL : bulletLoop s b true BULLET_SPEED with ⟨s1, b1, a1⟩
  cases a1 <;> simp [hL, List.foldl]

/-- C2: bullet advance.  Per turn a bullet is sub-stepped BULLET_SPEED
cells; it stays live exactly when neither sub-step triggers a death
condition (exceeding max range, an invalid cell, or a living non-owner
tank), in which case the world is untouched and the bullet has advanced
BULLET_SPEED cells; entering an invalid cell emits an EXPLOSION event
there; entering a living non-owner tank's cell decrements that tank's HP
and emits an EXPLOSION carrying the hit tank's id; updateBullets keeps
exactly the surviving bullet; and an unobstructed bullet is live after k
turns exactly while its travel distance is within max range, so it goes
inactive after exactly BULLET_MAX_RANGE cells. -/
theorem updateBullets_bullet_lifecycle :
    (∀ s b, (bulletLoop s b true BULLET_SPEED).2.2 = true
      ↔ (¬ bulletDiesAt s b 1 ∧ ¬ bulletDiesAt s b 2))
    ∧ (∀ s b, ¬ bulletDiesAt s b 1 → ¬ bulletDiesAt s b 2 →
        bulletLoop s b true BULLET_SPEED = (s, advanceBullet b 2, true))
    ∧ (∀ s b, ¬ b.dist + 1 > BULLET_MAX_RANGE →
        s.grid.isValid (b.x + b.dx) (b.y + b.dy) = false →
        bulletSubStep s b
          = (addEventExplosion s (b.x + b.dx) (b.y + b.dy) b.owner none,
             advanceBullet b 1, false))
    ∧ (∀ s b tid, tid ≠ b.owner → ¬ b.dist + 1 > BULLET_MAX_RANGE →
        s.grid.isValid (b.x + b.dx) (b.y + b.dy) = true →
        ((getTank s tid).hp > 0 ∧ (getTank s tid).x = b.x + b.dx
          ∧ (getTank s tid).y = b.y + b.dy) →
        bulletSubStep s b
          = (addEventExplosion
              (logTick (setTank s tid { getTank s tid with hp := (getTank s tid).hp - 1 })
                b.owner
                (tidName b.owner ++ " bullet hits " ++ tidName tid ++ "! HP: "
                  ++ toString ((getTank s tid).hp - 1)))
              (b.x + b.dx) (b.y + b.dy) b.owner (some tid),
             advanceBullet b 1, false))
    ∧ (∀ s b, s.bullets = [b] →
        updateBullets s
          = { (bulletLoop s b true BULLET_SPEED).1 with
              bullets := if (bulletLoop s b true BULLET_SPEED).2.2
                then [(bulletLoop s b true BULLET_SPEED).2.1] else [] })
    ∧ (∀ s b, s.bullets = [b] → b.dist = 0 → unobstructedPath s b →
        ∀ k : Nat, updateBullets^[k] s
          = { s with bullets := if BULLET_SPEED * k ≤ BULLET_MAX_RANGE
              then [advanceBullet b (BULLET_SPEED * k)] else [] }) :=
  ⟨fun s b => (bulletLoop_spec s b).1,
   fun s b => (bulletLoop_spec s b).2,
   bulletSubStep_terrain,
   fun s b tid h1 h2 h3 h4 => bulletSubStep_hits_tank s b tid h1 h2 h3 h4,
   updateBullets_singleton,
   updateBullets_iterate_unobstructed⟩

/-- Witness for C2: in a 50-wide empty corridor with both tanks destroyed,
the bullet is still live after 20 turns (40 cells, exactly max range) and
gone after 21. -/
theorem updateBullets_bullet_lifecycle_witness :
    (updateBullets^[20] sRange).bullets = [advanceBullet bRange 40]
    ∧ (updateBullets^[21] sRange).bullets = [] := by
  have h20 := updateBullets_bullet_lifecycle.2.2.2.2.2 sRange bRange rfl rfl (by decide) 20
  have h21 := updateBullets_bullet_lifecycle.2.2.2.2.2 sRange bRange rfl rfl (by decide) 21
  rw [h20, h21]
  exact ⟨by decide, by decide⟩

theorem bulletSubStep_owner (s : BattleState) (b : Bullet) :
    (bulletSubStep s b).2.1.owner = b.owner := by
  unfold bulletSubStep
  dsimp only
  repeat' first
  | rfl
  | split

theorem bulletSubStep_world (s : BattleState) (b : Bullet) :
    (bulletSubStep s b).1.bullets = s.bullets
    ∧ (bulletSubStep s b).1.winner = s.winner
    ∧ (bulletSubStep s b).1.isGameOver = s.isGameOver := by
  unfold bulletSubStep bulletHitTank
  dsimp only
  repeat' split
  all_goals simp

theorem bulletLoop_owner (n : Nat) : ∀ (s : BattleState) (b : Bullet) (a : Bool),
    (bulletLoop s b a n).2.1.owner = b.owner := by
  induction n with
  | zero =>
    intro s b a
    rfl
  | succ n ih =>
    intro s b a
    unfold bulletLoop
    split
    · rw [ih]
      exact bulletSubStep_owner s b
    · rfl

theorem bulletLoop_world (n : Nat) : ∀ (s : BattleState) (b : Bullet) (a : Bool),
    (bulletLoop s b a n).1.bullets = s.bullets
    ∧ (bulletLoop s b a n).1.winner = s.winner
    ∧ (bulletLoop s b a n).1.isGameOver = s.isGameOver := by
  induction n with
  | zero =>
    intro s b a
    exact ⟨rfl, rfl, rfl⟩
  | succ n ih =>
    intro s b a
    unfold bulletLoop
    split
    · obtain ⟨h1, h2, h3⟩ := bulletSubStep_world s b
      obtain ⟨g1, g2, g3⟩ := ih (bulletSubStep s b).1 (bulletSubStep s b).2.1 (bulletSubStep s b).2.2
      exact ⟨g1.trans h1, g2.trans h2, g3.trans h3⟩
    · exact ⟨rfl, rfl, rfl⟩

theorem updateBullets_fold_world (l : List Bullet) :
    ∀ (s0 : BattleState) (acc : List Bullet),
    ((l.foldl (fun (acc : BattleState × List Bullet) b =>
        let r := bulletLoop acc.1 b true BULLET_SPEED
        (r.1, if r.2.2 then acc.2 ++ [r.2.1] else acc.2)) (s0, acc)).1).winner = s0.winner
    ∧ ((l.foldl (fun (acc : BattleState × List Bullet) b =>
        let r := bulletLoop acc.1 b true BULLET_SPEED
        (r.1, if r.2.2 then acc.2 ++ [r.2.1] else acc.2)) (s0, acc)).1).isGameOver = s0.isGameOver := by
  induction l with
  | nil =>
    intro s0 acc
    exact ⟨rfl, rfl⟩
  | cons b t ih =>
    intro s0 acc
    simp only [List.foldl_cons]
    obtain ⟨h1, h2⟩ := ih (bulletLoop s0 b true BULLET_SPEED).1
      (if (bulletLoop s0 b true BULLET_SPEED).2.2 then acc ++ [(bulletLoop s0 b true BULLET_SPEED).2.1] else acc)
    obtain ⟨_, w2, w3⟩ := bulletLoop_world BULLET_SPEED s0 b true
    exact ⟨h1.trans w2, h2.trans w3⟩

theorem updateBullets_world (s : BattleState) :
    (updateBullets s).winner = s.winner
    ∧ (updateBullets s).isGameOver = s.isGameOver := by
  unfold updateBullets
  obtain ⟨h1, h2⟩ := updateBullets_fold_world s.bullets s []
  exact ⟨h1, h2⟩

theorem updateBullets_owners_sublist (s : BattleState) :
    ((updateBullets s).bullets.map Bullet.owner).Sublist (s.bullets.map Bullet.owner) := by
  unfold updateBullets
  suffices h : ∀ (l : List Bullet) (s0 : BattleState) (acc : List Bullet),
      (((l.foldl (fun (acc : BattleState × List Bullet) b =>
          let r := bulletLoop acc.1 b true BULLET_SPEED
          (r.1, if r.2.2 then acc.2 ++ [r.2.1] else acc.2)) (s0, acc)).2).map Bullet.owner).Sublist
        (acc.map Bullet.owner ++ l.map Bullet.owner) by
    simpa using h s.bullets s []
  intro l
  induction l with
  | nil =>
    intro s0 acc
    simp
  | cons b t ih =>
    intro s0 acc
    simp only [List.foldl_cons, List.map_cons]
    by_cases hA : (bulletLoop s0 b true BULLET_SPEED).2.2 = true
    · have := ih (bulletLoop s0 b true BULLET_SPEED).1
        (acc ++ [(bulletLoop s0 b true BULLET_SPEED).2.1])
      rw [hA] at *
      simp only [if_true, List.map_append, List.map_cons, List.map_nil,
        bulletLoop_owner] at this
      simpa using this
    · rw [Bool.not_eq_true] at hA
      have := ih (bulletLoop s0 b true BULLET_SPEED).1 acc
      rw [hA] at *
      simp only [if_false, Bool.false_eq_true] at *
      exact this.trans (by
        refine List.Sublist.append (List.Sublist.refl _) ?_
        exact List.sublist_cons_self _ _)

theorem onePerOwner_map (l : List Bullet) :
    onePerOwner l ↔ (l.map Bullet.owner).Pairwise (· ≠ ·) := by
  unfold onePerOwner
  rw [List.pairwise_map]

theorem updateBullets_onePerOwner (s : BattleState) (h : onePerOwner s.bullets) :
    onePerOwner (updateBullets s).bullets := by
  rw [onePerOwner_map] at h ⊢
  exact List.Pairwise.sublist (updateBullets_owners_sublist s) h

theorem hasLiveBullet_false_owners (s : BattleState) (tid : TankId)
    (h : hasLiveBullet s tid = false) :
    ∀ b ∈ s.bullets, b.owner ≠ tid := by
  intro b hb
  unfold hasLiveBullet at h
  rw [List.any_eq_false] at h
  have := h b hb
  simpa using this

theorem resolveAction_bullets (s : BattleState) (tid : TankId)
    (a : Option ActionResult) (h : onePerOwner s.bullets) :
    onePerOwner (resolveAction s tid a).1.bullets := by
  rcases a with _ | a
  · exact h
  cases a <;> try exact h
  · -- rotate
    unfold resolveAction
    dsimp only
    simp [h]
  · -- fire
    unfold resolveAction
    dsimp only
    by_cases hL : hasLiveBullet s tid = true
    · simp only [hL, if_true]
      simpa using h
    · rw [Bool.not_eq_true] at hL
      simp only [hL, Bool.false_eq_true, if_false]
      split
      · simpa using h
      · split
        · simpa using h
        · unfold onePerOwner at h ⊢
          dsimp only
          simp only [logTick_bullets]
          rw [List.pairwise_append]
          refine ⟨h, List.pairwise_singleton _ _, ?_⟩
          intro a ha c hc
          simp only [List.mem_singleton] at hc
          subst hc
          exact fun hcontra => (hasLiveBullet_false_owners s tid hL a ha) hcontra

theorem resolveAction_world (s : BattleState) (tid : TankId) (a : Option ActionResult) :
    (resolveAction s tid a).1.winner = s.winner
    ∧ (resolveAction s tid a).1.isGameOver = s.isGameOver := by
  rcases a with _ | a
  · exact ⟨rfl, rfl⟩
  cases a <;> try exact ⟨rfl, rfl⟩
  · unfold resolveAction
    dsimp only
    constructor <;> simp
  · unfold resolveAction
    dsimp only
    repeat' split
    all_goals constructor <;> simp

theorem resolveScan_world (s : BattleState) (tid : TankId) (d t : String) :
    (resolveScan s tid d t).bullets = s.bullets
    ∧ (resolveScan s tid d t).winner = s.winner
    ∧ (resolveScan s tid d t).isGameOver = s.isGameOver := by
  unfold resolveScan
  dsimp only
  exact ⟨by simp, by simp, by simp⟩

theorem resolvePing_world (s : BattleState) (tid : TankId) (dx dy : String) :
    (resolvePing s tid dx dy).bullets = s.bullets
    ∧ (resolvePing s tid dx dy).winner = s.winner
    ∧ (resolvePing s tid dx dy).isGameOver = s.isGameOver := by
  unfold resolvePing
  dsimp only
  split <;> exact ⟨by simp, by simp, by simp⟩

theorem sensorPhase_world (s : BattleState) (a1 a2 : Option ActionResult) :
    (sensorPhase s a1 a2).bullets = s.bullets
    ∧ (sensorPhase s a1 a2).winner = s.winner
    ∧ (sensorPhase s a1 a2).isGameOver = s.isGameOver := by
  unfold sensorPhase
  dsimp only
  repeat' split
  all_goals refine ⟨?_, ?_, ?_⟩ <;>
    simp only [(resolveScan_world _ _ _ _).1, (resolveScan_world _ _ _ _).2.1,
      (resolveScan_world _ _ _ _).2.2, (resolvePing_world _ _ _ _).1,
      (resolvePing_world _ _ _ _).2.1, (resolvePing_world _ _ _ _).2.2]

set_option maxHeartbeats 2000000 in
theorem applyMovements_world (s : BattleState) (m1 m2 : Option Intent) :
    (applyMovements s m1 m2).bullets = s.bullets
    ∧ (applyMovements s m1 m2).winner = s.winner
    ∧ (applyMovements s m1 m2).isGameOver = s.isGameOver := by
  unfold applyMovements
  dsimp only
  repeat' split
  all_goals simp [clampTank]

theorem applyMovements_bullets (s : BattleState) (m1 m2 : Option Intent) :
    (applyMovements s m1 m2).bullets = s.bullets := (applyMovements_world s m1 m2).1

theorem applyMovements_winner (s : BattleState) (m1 m2 : Option Intent) :
    (applyMovements s m1 m2).winner = s.winner := (applyMovements_world s m1 m2).2.1

theorem applyMovements_isGameOver (s : BattleState) (m1 m2 : Option Intent) :
    (applyMovements s m1 m2).isGameOver = s.isGameOver := (applyMovements_world s m1 m2).2.2

theorem sensorPhase_bullets (s : BattleState) (a1 a2 : Option ActionResult) :
    (sensorPhase s a1 a2).bullets = s.bullets := (sensorPhase_world s a1 a2).1

theorem sensorPhase_winner (s : BattleState) (a1 a2 : Option ActionResult) :
    (sensorPhase s a1 a2).winner = s.winner := (sensorPhase_world s a1 a2).2.1

theorem sensorPhase_isGameOver (s : BattleState) (a1 a2 : Option ActionResult) :
    (sensorPhase s a1 a2).isGameOver = s.isGameOver := (sensorPhase_world s a1 a2).2.2

theorem resolveAction_winner (s : BattleState) (tid : TankId) (a : Option ActionResult) :
    (resolveAction s tid a).1.winner = s.winner := (resolveAction_world s tid a).1

theorem resolveAction_isGameOver (s : BattleState) (tid : TankId) (a : Option ActionResult) :
    (resolveAction s tid a).1.isGameOver = s.isGameOver := (resolveAction_world s tid a).2

theorem updateBullets_winner (s : BattleState) :
    (updateBullets s).winner = s.winner := (updateBullets_world s).1

theorem updateBullets_isGameOver (s : BattleState) :
    (updateBullets s).isGameOver = s.isGameOver := (updateBullets_world s).2

set_option maxHeartbeats 1000000 in
theorem gameOverEval_bullets (m : Nat) (s : BattleState) :
    (gameOverEval m s).bullets = s.bullets := by
  unfold gameOverEval
  dsimp only
  repeat' split
  all_goals simp

set_option maxHeartbeats 1000000 in
theorem gameOverEval_winnerConsistent (m : Nat) (s : BattleState)
    (h : winnerConsistent s) : winnerConsistent (gameOverEval m s) := by
  unfold winnerConsistent gameOverEval at *
  dsimp only
  repeat' split
  all_goals simp_all

theorem prePhases_onePerOwner (s : BattleState) (h : onePerOwner s.bullets) :
    onePerOwner (prePhases s).bullets := by
  unfold prePhases
  dsimp only
  rw [applyMovements_bullets]
  refine resolveAction_bullets _ _ _ (resolveAction_bullets _ _ _ ?_)
  rw [sensorPhase_bullets]
  exact updateBullets_onePerOwner _ h

theorem prePhases_winnerConsistent (s : BattleState) (h : winnerConsistent s) :
    winnerConsistent (prePhases s) := by
  unfold winnerConsistent at *
  unfold prePhases
  dsimp only
  rw [applyMovements_winner, applyMovements_isGameOver,
    resolveAction_winner, resolveAction_isGameOver,
    resolveAction_winner, resolveAction_isGameOver,
    sensorPhase_winner, sensorPhase_isGameOver,
    updateBullets_winner, updateBullets_isGameOver]
  exact h

theorem resolveTurn_onePerOwner (m : Nat) (s : BattleState) (h : onePerOwner s.bullets) :
    onePerOwner (resolveTurn m s).bullets := by
  unfold resolveTurn clearPending
  dsimp only
  rw [gameOverEval_bullets]
  exact prePhases_onePerOwner s h

theorem resolveTurn_winnerConsistent (m : Nat) (s : BattleState)
    (h : winnerConsistent s) : winnerConsistent (resolveTurn m s) := by
  unfold resolveTurn
  have h1 := gameOverEval_winnerConsistent m (prePhases s) (prePhases_winnerConsistent s h)
  unfold winnerConsistent at *
  exact h1

set_option maxHeartbeats 1000000 in
theorem stepCPU_world (f : CPU → CPU × Option ActionResult) (s : BattleState)
    (tid : TankId) :
    (stepCPU f s tid).1.bullets = s.bullets
    ∧ (stepCPU f s tid).1.winner = s.winner
    ∧ (stepCPU f s tid).1.isGameOver = s.isGameOver := by
  unfold stepCPU
  dsimp only
  repeat' split
  all_goals cases tid <;> refine ⟨?_, ?_, ?_⟩ <;> simp [incTurnOps, setPending, setTank]

theorem loadCode_world {τ : Type} (tokenize : String → τ) (parse : τ → ParseOutput)
    (s : BattleState) (c1 c2 : String) :
    ((loadCode tokenize parse s c1 c2).1.bullets = s.bullets
      ∧ (loadCode tokenize parse s c1 c2).1.winner = s.winner
      ∧ (loadCode tokenize parse s c1 c2).1.isGameOver = s.isGameOver)
    ∨ ((loadCode tokenize parse s c1 c2).1.bullets = []
      ∧ (loadCode tokenize parse s c1 c2).1.winner = none
      ∧ (loadCode tokenize parse s c1 c2).1.isGameOver = false) := by
  unfold loadCode
  dsimp only
  split
  · exact Or.inl ⟨rfl, rfl, rfl⟩
  · split
    · exact Or.inl ⟨by simp, by simp, by simp⟩
    · exact Or.inr ⟨rfl, rfl, rfl⟩

/-- C5: in every state reachable through the public operations the bullet
list holds at most one live bullet per owner; and resolving FIRE while a
live bullet owned by the same tank exists leaves the bullet list unchanged
(no second bullet is ever added). -/
theorem reachable_at_most_one_bullet_per_owner :
    (∀ s, Reachable s → onePerOwner s.bullets)
    ∧ (∀ s tid, hasLiveBullet s tid = true →
        (resolveAction s tid (some .fire)).1.bullets = s.bullets) := by
  constructor
  · intro s h
    induction h with
    | init =>
      have hb : initState.bullets = [] := rfl
      rw [hb]
      exact List.Pairwise.nil
    | arena s l _ ih =>
      have hb : (setupArena s l).bullets = s.bullets := rfl
      rw [hb]
      exact ih
    | load tokenize parse s c1 c2 _ ih =>
      rcases loadCode_world tokenize parse s c1 c2 with ⟨hb, _, _⟩ | ⟨hb, _, _⟩
      · rw [hb]
        exact ih
      · rw [hb]
        exact List.Pairwise.nil
    | reset s _ _ =>
      have hb : (resetTurnState s).bullets = [] := rfl
      rw [hb]
      exact List.Pairwise.nil
    | step f s tid _ ih =>
      rw [(stepCPU_world f s tid).1]
      exact ih
    | turn m s _ ih =>
      exact resolveTurn_onePerOwner m s ih
  · intro s tid h
    unfold resolveAction
    dsimp only
    simp [h]

/-- Witness for C5: the constructor state satisfies the invariant, and a
FIRE resolved while a P1 bullet is in flight leaves the bullet list as it
was. -/
theorem reachable_at_most_one_bullet_per_owner_witness :
    onePerOwner initState.bullets
    ∧ (resolveAction sAmmo TankId.P1 (some .fire)).1.bullets = sAmmo.bullets :=
  ⟨reachable_at_most_one_bullet_per_owner.1 initState Reachable.init,
   reachable_at_most_one_bullet_per_owner.2 sAmmo TankId.P1 (by decide)⟩

/-- C9: in every state reachable through the public operations the winner
field is non-null exactly when isGameOver is true - every operation sets or
clears the two together. -/
theorem reachable_winner_iff_gameOver :
    ∀ s, Reachable s → (s.winner ≠ none ↔ s.isGameOver = true) := by
  intro s h
  have hc : winnerConsistent s := by
    induction h with
    | init => rfl
    | arena s l _ ih => exact ih
    | load tokenize parse s c1 c2 _ ih =>
      rcases loadCode_world tokenize parse s c1 c2 with ⟨_, hw, hg⟩ | ⟨_, hw, hg⟩
      · unfold winnerConsistent at *
        rw [hw, hg]
        exact ih
      · unfold winnerConsistent
        rw [hw, hg]
        rfl
    | reset s _ _ => rfl
    | step f s tid _ ih =>
      unfold winnerConsistent at *
      rw [(stepCPU_world f s tid).2.1, (stepCPU_world f s tid).2.2]
      exact ih
    | turn m s _ ih =>
      exact resolveTurn_winnerConsistent m s ih
  unfold winnerConsistent at hc
  rw [← hc]
  cases s.winner <;> simp

/-- Witness for C9 at the state reached by resolving one turn from the
constructor state. -/
theorem reachable_winner_iff_gameOver_witness :
    ((resolveTurn 1 initState).winner ≠ none
      ↔ (resolveTurn 1 initState).isGameOver = true) :=
  reachable_winner_iff_gameOver _ (Reachable.turn 1 initState Reachable.init)

set_option maxHeartbeats 4000000 in
/-- C1: applyMovements realizes the claim's ordered filter.  For each
submitted intent exactly one outcome applies - wall, collision, blocked, or
moved, decided in that priority order with once-rejected intents never
reinstated - feedback is WALL / COLLISION / BLOCKED accordingly (a
surviving move leaves feedback untouched), a surviving intent sets the
tank's position to its target, and both positions are finally clamped to
grid bounds. -/
theorem applyMovements_ordered_filter (s : BattleState) (m1 m2 : Option Intent) :
    ((applyMovements s m1 m2).tankP1.lastFeedback
      = match m1 with
        | none => s.tankP1.lastFeedback
        | some t1 => outcomeFeedback s.tankP1.lastFeedback
            (orderedFilterOutcome s.grid (s.tankP1.x, s.tankP1.y)
              (s.tankP2.x, s.tankP2.y) t1 m2))
    ∧ (((applyMovements s m1 m2).tankP1.x, (applyMovements s m1 m2).tankP1.y)
      = clampPair s.grid
          (match m1 with
           | none => (s.tankP1.x, s.tankP1.y)
           | some t1 => outcomePos (s.tankP1.x, s.tankP1.y) t1
               (orderedFilterOutcome s.grid (s.tankP1.x, s.tankP1.y)
                 (s.tankP2.x, s.tankP2.y) t1 m2)))
    ∧ ((applyMovements s m1 m2).tankP2.lastFeedback
      = match m2 with
        | none => s.tankP2.lastFeedback
        | some t2 => outcomeFeedback s.tankP2.lastFeedback
            (orderedFilterOutcome s.grid (s.tankP2.x, s.tankP2.y)
              (s.tankP1.x, s.tankP1.y) t2 m1))
    ∧ (((applyMovements s m1 m2).tankP2.x, (applyMovements s m1 m2).tankP2.y)
      = clampPair s.grid
          (match m2 with
           | none => (s.tankP2.x, s.tankP2.y)
           | some t2 => outcomePos (s.tankP2.x, s.tankP2.y) t2
               (orderedFilterOutcome s.grid (s.tankP2.x, s.tankP2.y)
                 (s.tankP1.x, s.tankP1.y) t2 m1))) := by
  rcases m1 with _ | t1 <;> rcases m2 with _ | t2
  · simp [applyMovements, wallRejected, clampTank, clampPair]
  · by_cases hv2 : s.grid.isValid t2.targetX t2.targetY = true
    · by_cases hb2 : (t2.targetX, t2.targetY) = (s.tankP1.x, s.tankP1.y)
      · simp [applyMovements, wallRejected, orderedFilterOutcome, outcomeFeedback,
          outcomePos, clampTank, clampPair, hv2, hb2, setFeedback, setTank, getTank]
      · simp [applyMovements, wallRejected, orderedFilterOutcome, outcomeFeedback,
          outcomePos, clampTank, clampPair, hv2, hb2, setFeedback, setTank, getTank]
    · rw [Bool.not_eq_true] at hv2
      simp [applyMovements, wallRejected, orderedFilterOutcome, outcomeFeedback,
        outcomePos, clampTank, clampPair, hv2, setFeedback, setTank, getTank]
  · by_cases hv1 : s.grid.isValid t1.targetX t1.targetY = true
    · by_cases hb1 : (t1.targetX, t1.targetY) = (s.tankP2.x, s.tankP2.y)
      · simp [applyMovements, wallRejected, orderedFilterOutcome, outcomeFeedback,
          outcomePos, clampTank, clampPair, hv1, hb1, setFeedback, setTank, getTank]
      · simp [applyMovements, wallRejected, orderedFilterOutcome, outcomeFeedback,
          outcomePos, clampTank, clampPair, hv1, hb1, setFeedback, setTank, getTank]
    · rw [Bool.not_eq_true] at hv1
      simp [applyMovements, wallRejected, orderedFilterOutcome, outcomeFeedback,
        outcomePos, clampTank, clampPair, hv1, setFeedback, setTank, getTank]
  · by_cases hv1 : s.grid.isValid t1.targetX t1.targetY = true <;>
      by_cases hv2 : s.grid.isValid t2.targetX t2.targetY = true
    · by_cases hsw : (t1.targetX, t1.targetY) = (s.tankP2.x, s.tankP2.y)
          ∧ (t2.targetX, t2.targetY) = (s.tankP1.x, s.tankP1.y)
      · simp [applyMovements, wallRejected, orderedFilterOutcome, outcomeFeedback,
          outcomePos, clampTank, clampPair, hv1, hv2, hsw, hsw.1, hsw.2,
          setFeedback, setTank, getTank]
      · by_cases hsame : (t1.targetX, t1.targetY) = (t2.targetX, t2.targetY)
        · have hswf : ¬((t2.targetX, t2.targetY) = (s.tankP2.x, s.tankP2.y)
              ∧ (t2.targetX, t2.targetY) = (s.tankP1.x, s.tankP1.y)) := by
            rw [hsame] at hsw
            exact hsw
          simp [-Prod.mk.injEq, -Bool.decide_and, applyMovements, wallRejected,
            orderedFilterOutcome, outcomeFeedback, outcomePos, clampTank,
            clampPair, hv1, hv2, hsame, hswf, setFeedback, setTank, getTank]
        · by_cases hb1 : (t1.targetX, t1.targetY) = (s.tankP2.x, s.tankP2.y) <;>
            by_cases hb2 : (t2.targetX, t2.targetY) = (s.tankP1.x, s.tankP1.y)
          · exact absurd ⟨hb1, hb2⟩ hsw
          · have hsameA : ¬((s.tankP2.x, s.tankP2.y) = (t2.targetX, t2.targetY)) := by
              rw [hb1] at hsame
              exact hsame
            have hsameAr : ¬((t2.targetX, t2.targetY) = (s.tankP2.x, s.tankP2.y)) :=
              fun h => hsameA h.symm
            simp [-Prod.mk.injEq, -Bool.decide_and, applyMovements, wallRejected,
              orderedFilterOutcome, outcomeFeedback, outcomePos, clampTank,
              clampPair, hv1, hv2, hb1, hb2, hsameA, hsameAr,
              setFeedback, setTank, getTank]
          · have hsameB : ¬((t1.targetX, t1.targetY) = (s.tankP1.x, s.tankP1.y)) := by
              rw [hb2] at hsame
              exact hsame
            have hsameBr : ¬((s.tankP1.x, s.tankP1.y) = (t1.targetX, t1.targetY)) :=
              fun h => hsameB h.symm
            simp [-Prod.mk.injEq, -Bool.decide_and, applyMovements, wallRejected,
              orderedFilterOutcome, outcomeFeedback, outcomePos, clampTank,
              clampPair, hv1, hv2, hb1, hb2, hsameB, hsameBr,
              setFeedback, setTank, getTank]
          · have hsamer : ¬((t2.targetX, t2.targetY) = (t1.targetX, t1.targetY)) :=
              fun h => hsame h.symm
            have hswr : ¬((t2.targetX, t2.targetY) = (s.tankP1.x, s.tankP1.y)
                ∧ (t1.targetX, t1.targetY) = (s.tankP2.x, s.tankP2.y)) :=
              fun h => hsw ⟨h.2, h.1⟩
            simp [-Prod.mk.injEq, -Bool.decide_and, applyMovements, wallRejected,
              orderedFilterOutcome, outcomeFeedback, outcomePos, clampTank,
              clampPair, hv1, hv2, hsw, hswr, hsame, hsamer, hb1, hb2,
              setFeedback, setTank, getTank]
    · rw [Bool.not_eq_true] at hv2
      by_cases hb1 : (t1.targetX, t1.targetY) = (s.tankP2.x, s.tankP2.y)
      · simp [applyMovements, wallRejected, orderedFilterOutcome, outcomeFeedback,
          outcomePos, clampTank, clampPair, hv1, hv2, hb1,
          setFeedback, setTank, getTank]
      · simp [applyMovements, wallRejected, orderedFilterOutcome, outcomeFeedback,
          outcomePos, clampTank, clampPair, hv1, hv2, hb1,
          setFeedback, setTank, getTank]
    · rw [Bool.not_eq_true] at hv1
      by_cases hb2 : (t2.targetX, t2.targetY) = (s.tankP1.x, s.tankP1.y)
      · simp [applyMovements, wallRejected, orderedFilterOutcome, outcomeFeedback,
          outcomePos, clampTank, clampPair, hv1, hv2, hb2,
          setFeedback, setTank, getTank]
      · simp [applyMovements, wallRejected, orderedFilterOutcome, outcomeFeedback,
          outcomePos, clampTank, clampPair, hv1, hv2, hb2,
          setFeedback, setTank, getTank]
    · rw [Bool.not_eq_true] at hv1 hv2
      simp [applyMovements, wallRejected, orderedFilterOutcome, outcomeFeedback,
        outcomePos, clampTank, clampPair, hv1, hv2, setFeedback, setTank, getTank]
